import Mathlib

/-!
Shallow embedding of the data-pool seeding service
(`src/data-pool/data-pool.service.ts`, current version in `unnamed/part_000`).

The service talks to a remote HTTP backend (via axios) and a Redis cache.
We model one run of a service method as a pure function on a `St` state:

* the remote backend is an oracle `env : Nat -> HttpOutcome`; each HTTP call
  (GET or POST) consumes the next oracle entry, so "for every behaviour of
  the backend" is quantification over `env`;
* the Redis cache is an association list (most recent binding first);
* every externally visible action is appended to an event `trace`
  (HTTP calls, generator invocations, cache reads/writes), which lets the
  theorems speak about write counts and call ordering;
* a thrown JS exception from axios is the `HttpOutcome.thrown` oracle value;
  the `try`/`catch` structure of the source is mirrored by the match arms
  that return the corresponding fallback values;
* JSON values are modelled by `JVal` at the granularity the service
  inspects them: falsy (`null`/`undefined`), arrays, and truthy non-array
  objects whose `id`/`name`/`status` fields the service may read.
  JSON serialisation to Redis is modelled as lossless (`CacheVal` stores
  the value itself).
-/

namespace DataPool

/-- The fields of a backend-returned JSON object that the service ever
inspects: the record identifier, the display name (used by the order
generator) and the order status (used by the special-status-order check).
Absent fields are `none`, matching `undefined` in JS. -/
structure RecObj where
  id : Option String
  name : Option String
  status : Option String
deriving DecidableEq, Repr

/-- A JSON value at the granularity this service distinguishes them:
falsy scalars (`null`/`undefined`), arrays, and truthy non-array objects. -/
inductive JVal where
  | jnull : JVal
  | jarr (xs : List JVal) : JVal
  | jobj (o : RecObj) : JVal

/-- JS truthiness of a `JVal`: `null`/`undefined` are falsy, arrays and
objects (including the empty array) are truthy. -/
def JVal.truthy : JVal → Bool
  | .jnull => false
  | .jarr _ => true
  | .jobj _ => true

/-- `v?.id || null` for a pool member: `none` unless `v` is an object with
a present `id` field (a missing property reads as `undefined`). -/
def JVal.objId : JVal → Option String
  | .jobj o => o.id
  | _ => none

/-- `v?.name` for a pool member. -/
def JVal.objName : JVal → Option String
  | .jobj o => o.name
  | _ => none

/-- `v?.status` for a pool member. -/
def JVal.objStatus : JVal → Option String
  | .jobj o => o.status
  | _ => none

/-- The orchestrator-visible projection of a generated payload: inside
`ensureEntityPool` / `generateAdditionalEntity` the submitted `itemData` is
only ever read at `payment_method`, `customer_id` and `restaurant_id`
(the FWallet side-effect block).  Payloads of non-order generators have
none of these properties, so they project to three `none`s. -/
structure Payload where
  payment_method : Option String
  customer_id : Option String
  restaurant_id : Option String
deriving DecidableEq, Repr

/-- Outcome of one axios call against the remote backend: a thrown
exception (network error) or a response envelope with `EC` and `data`. -/
inductive HttpOutcome where
  | thrown : HttpOutcome
  | resp (ec : Int) (data : JVal) : HttpOutcome

/-- Externally visible events of one service run, in execution order. -/
inductive Event where
  | hGet (path : String) : Event
  | hPost (path : String) (itemData : Payload) : Event
  | genCall (entityName : String) : Event
  | cGet (key : String) : Event
  | cSet (key : String) (ttlMs : Nat) : Event
  | cDel (key : String) : Event
deriving DecidableEq, Repr

/-- The aggregated snapshot built by `ensureDataPools`, one field per
entity pool, in the dependency order of the source object literal. -/
structure Pools where
  addressBooks : List JVal
  foodCategories : List JVal
  superAdmins : List JVal
  financeAdmins : List JVal
  companionAdmins : List JVal
  financeRules : List JVal
  restaurants : List JVal
  menuItems : List JVal
  menuItemVariants : List JVal
  promotions : List JVal
  drivers : List JVal
  customers : List JVal
  customerCares : List JVal
  orders : List JVal
  customerCareInquiries : List JVal
  ratingReviews : List JVal

instance : Inhabited Pools :=
  ⟨⟨[], [], [], [], [], [], [], [], [], [], [], [], [], [], [], []⟩⟩

/-- A value stored in Redis.  The service stores two kinds of JSON
documents: the full pools aggregate (under `data-pools:all`) and wallet
records (under `fwallet:*`).  `JSON.stringify`/`JSON.parse` are modelled
as the identity on the stored value (lossless serialisation). -/
inductive CacheVal where
  | pools (p : Pools) : CacheVal
  | jval (v : JVal) : CacheVal

/-- `JSON.parse` of a cached pools document.  In every run of this service
the key `data-pools:all` only ever holds a pools aggregate; a foreign
value parses to the empty aggregate. -/
def parsePools : CacheVal → Pools
  | .pools p => p
  | .jval _ => default

/-- Execution state of one service run: the backend oracle and its cursor,
the Redis store (association list, newest binding first), and the event
trace in chronological order. -/
structure St where
  env : Nat → HttpOutcome
  k : Nat
  cache : List (String × CacheVal)
  trace : List Event

/-- State-passing semantics of one `async` service computation. -/
def M (α : Type) : Type := St → α × St

instance : Monad M where
  pure a := fun s => (a, s)
  bind m f := fun s => let r := m s; f r.1 r.2

/-- `axios.get`: consumes the next backend outcome, records the call. -/
def httpGet (path : String) : M HttpOutcome := fun s =>
  (s.env s.k, { s with k := s.k + 1, trace := s.trace ++ [Event.hGet path] })

/-- `axios.post`: consumes the next backend outcome, records the call with
the orchestrator-visible projection of the submitted payload. -/
def httpPost (path : String) (itemData : Payload) : M HttpOutcome := fun s =>
  (s.env s.k, { s with k := s.k + 1, trace := s.trace ++ [Event.hPost path itemData] })

/-- `redisService.get`. -/
def redisGet (key : String) : M (Option CacheVal) := fun s =>
  (s.cache.lookup key, { s with trace := s.trace ++ [Event.cGet key] })

/-- `redisService.set` with a TTL in milliseconds. -/
def redisSet (key : String) (v : CacheVal) (ttlMs : Nat) : M Unit := fun s =>
  ((), { s with cache := (key, v) :: s.cache, trace := s.trace ++ [Event.cSet key ttlMs] })

/-- `redisService.del`. -/
def redisDel (key : String) : M Unit := fun s =>
  ((), { s with cache := s.cache.filter (fun e => !(e.1 = key : Bool)),
                trace := s.trace ++ [Event.cDel key] })

/-- Records that `generateData()` was invoked for an entity (the call
itself is pure; the event only marks the position in the call order). -/
def genEvent (entityName : String) : M Unit := fun s =>
  ((), { s with trace := s.trace ++ [Event.genCall entityName] })

/-- `minPoolSize` in `DataPoolService`. -/
def minPoolSize : Nat := 10

/-- `cacheKey` in `DataPoolService`. -/
def cacheKey : String := "data-pools:all"

/-- `cacheTtl` in `DataPoolService` (seconds). -/
def cacheTtl : Nat := 3600

/-- String interpolation of an optional id into a URL or cache key:
a missing id interpolates as the text of the JS `null` value. -/
def jsStr : Option String → String
  | some v => v
  | none => "null"

/-- One generation-and-submission cycle of the retry loop, shared verbatim
between `ensureEntityPool` and `generateAdditionalEntity` in the source
(lines 129-202 and 237-304 of the service).  Returns `some created` when
the cycle counted a successful creation (`successfulCreations++` and
`newItems.push`), `none` when the attempt failed or an exception was
caught by the inner `catch`.  The FWallet block: after a successful order
POST with payment method FWallet, three wallet GETs are issued and, if all
three respond with `EC === 0`, the three wallet cache keys are written
with a TTL of `7200 * 1000` milliseconds.  A thrown wallet GET is caught
by the inner `catch`, so the created record is dropped and the cycle does
not count as a success. -/
def attemptCycle (entityName postEndpoint : String) (itemData : Payload) :
    M (Option JVal) := do
  let postResponse ← httpPost postEndpoint itemData
  match postResponse with
  | .thrown => pure none
  | .resp ec d =>
    if ec = 0 ∧ d.truthy then
      if entityName = "Orders" ∧ itemData.payment_method = some "FWallet" then do
        let customerWalletResponse ← httpGet ("/fwallets/by-user/" ++ jsStr itemData.customer_id)
        match customerWalletResponse with
        | .thrown => pure none
        | .resp ec1 d1 => do
          let restaurantWalletResponse ← httpGet ("/fwallets/by-user/" ++ jsStr itemData.restaurant_id)
          match restaurantWalletResponse with
          | .thrown => pure none
          | .resp ec2 d2 => do
            let adminWalletResponse ← httpGet "/fwallets/by-user/FLASHFOOD_FINANCE"
            match adminWalletResponse with
            | .thrown => pure none
            | .resp ec3 d3 =>
              if ec1 = 0 ∧ ec2 = 0 ∧ ec3 = 0 then do
                redisSet ("fwallet:" ++ jsStr itemData.customer_id) (.jval d1) (7200 * 1000)
                redisSet ("fwallet:" ++ jsStr itemData.restaurant_id) (.jval d2) (7200 * 1000)
                redisSet "fwallet:FLASHFOOD_FINANCE" (.jval d3) (7200 * 1000)
                pure (some d)
              else
                pure (some d)
      else
        pure (some d)
    else
      pure none

/-- The bounded retry loop `while (successfulCreations < needed && attempts
< maxAttempts)`.  `fuel` is `maxAttempts - attempts`; `att` is the current
value of `attempts` (it indexes the random draws of `generateData`);
`acc` is `newItems`. -/
def poolLoop (entityName postEndpoint : String) (gen : Nat → Payload) (needed : Nat) :
    Nat → Nat → List JVal → M (List JVal)
  | 0, _, acc => pure acc
  | fuel + 1, att, acc => fun s =>
    let succ := acc.length
    if succ < needed then
      (do
        genEvent entityName
        let res ← attemptCycle entityName postEndpoint (gen att)
        match res with
        | some d => poolLoop entityName postEndpoint gen needed fuel (att + 1) (acc ++ [d])
        | none => poolLoop entityName postEndpoint gen needed fuel (att + 1) acc) s
    else
      (acc, s)

/-- `ensureEntityPool(entityName, getEndpoint, postEndpoint, generateData)`.
Reads the current pool, coerces a thrown read / non-zero `EC` / non-array
`data` to the empty array, truncates to the first `minPoolSize` records
when the pool is already large enough, and otherwise runs up to
`needed * 2` generation cycles, returning existing records followed by the
newly created ones.  The outer `catch` returns `[]`; with a pure cache the
only operation it can absorb is a thrown initial GET. -/
def ensureEntityPool (entityName getEndpoint postEndpoint : String)
    (gen : Nat → Payload) : M (List JVal) := do
  let response ← httpGet getEndpoint
  match response with
  | .thrown => pure []
  | .resp ec d =>
    let currentData0 := if d.truthy then d else JVal.jarr []
    let currentData1 := if ec ≠ 0 then JVal.jarr [] else currentData0
    let currentData := match currentData1 with
      | .jarr xs => xs
      | _ => []
    if minPoolSize ≤ currentData.length then
      pure (currentData.take minPoolSize)
    else do
      let needed := minPoolSize - currentData.length
      let newItems ← poolLoop entityName postEndpoint gen needed (needed * 2) 0 []
      pure (currentData ++ newItems)

/-- `generateAdditionalEntity(entityName, postEndpoint, generateData,
count)`: the same retry loop without the minimum-pool check; returns only
the newly created items. -/
def generateAdditionalEntity (entityName postEndpoint : String)
    (gen : Nat → Payload) (count : Nat) : M (List JVal) :=
  poolLoop entityName postEndpoint gen count (count * 2) 0 []

/-! ### Randomised payload generators

Every `generateData` closure in the source is a pure function of
(a) the pools it captured, (b) the sequence of `Math.random()` values it
draws, and (c) impure-but-value-opaque helpers (`uniqueNamesGenerator`,
`uuidv4`, `Date.now`).  We model one invocation by passing the draws as
`d : Nat -> Rat` (the n-th `Math.random()` call of the invocation, in
source evaluation order, each in `[0,1)`), the generated names/uuids as
`nm : Nat -> String`, and `Date.now() / 1000` (floored) as `now : Int`. -/

/-- `pool[Math.floor(Math.random() * pool.length)]`: out-of-range
(including the `NaN` index on an empty pool) reads as `undefined`. -/
def jpick (pool : List JVal) (q : ℚ) : Option JVal :=
  pool.get? (⌊q * pool.length⌋).toNat

/-- `xs[Math.floor(Math.random() * xs.length)]` for the fixed word lists
of the source (always non-empty, draw in `[0,1)`, hence always in range). -/
def strPick (xs : List String) (q : ℚ) : String :=
  (xs.get? (⌊q * xs.length⌋).toNat).getD ""

/-- `x?.id || null` where `x` is a possibly-`undefined` pool member. -/
def jsId (x : Option JVal) : Option String :=
  x.bind JVal.objId

/-- `parseFloat(v.toFixed(2))`: rounding to two decimals, modelled over the
rationals (the binary floating-point representation is abstracted away). -/
def fix2 (q : ℚ) : ℚ :=
  (⌊q * 100 + 1 / 2⌋ : ℚ) / 100

/-- `VALID_ORDER_STATUSES` from `src/types/orders.ts`. -/
def VALID_ORDER_STATUSES : List String :=
  ["PENDING", "PREPARING", "READY_FOR_PICKUP", "RESTAURANT_PICKUP",
   "DISPATCHED", "EN_ROUTE", "DELIVERED"]

/-- The fixed `customerNotes` word list of the order generators. -/
def customerNotes : List String :=
  ["Please handle with care", "Extra spicy please", "No onions",
   "Make it crispy", "Less salt", "Extra sauce on the side"]

/-- The fixed `restaurantNotes` word list of the order generators. -/
def restaurantNotes : List String :=
  ["Customer prefers well-done", "Special dietary requirements",
   "Rush order", "VIP customer", "Handle with care"]

/-- One `order_items` entry of a generated order payload. -/
structure OrderItemPayload where
  item_id : Option String
  variant_id : Option String
  name : String
  quantity : ℤ
  price_at_time_of_order : ℚ
deriving DecidableEq, Repr

/-- The full payload produced by the order generators (both the current
and the older service version emit exactly these fields). -/
structure OrderPayload where
  customer_id : Option String
  restaurant_id : Option String
  status : String
  total_amount : ℚ
  delivery_fee : ℚ
  service_fee : ℚ
  payment_status : String
  payment_method : String
  customer_location : Option String
  restaurant_location : Option String
  order_items : List OrderItemPayload
  customer_note : String
  restaurant_note : String
  order_time : ℤ
  delivery_time : ℤ
  tracking_info : String
deriving DecidableEq, Repr

/-- Orchestrator-visible projection of an order payload. -/
def OrderPayload.proj (p : OrderPayload) : Payload :=
  ⟨some p.payment_method, p.customer_id, p.restaurant_id⟩

/-- The order `generateData` closure of the CURRENT service version
(`unnamed/part_000`, `ensureOrders`, lines 856-931).  Draw indices follow
source evaluation order: 0 customer, 1 restaurant, 2 driver (drawn but
unused by the payload), 3 delivery address, 4 pickup address, 5 menu item,
6 menu item variant, 7 status, 8 payment method (from a two-element list),
9 total amount, 10 delivery fee, 11 quantity, 12 item price, 13 customer
note, 14 restaurant note, 15 delivery time. -/
def orderGenCurrent (customers restaurants drivers addressBooks menuItems
    menuItemVariants : List JVal) (d : Nat → ℚ) (now : ℤ) : OrderPayload :=
  let randomCustomer := jpick customers (d 0)
  let randomRestaurant := jpick restaurants (d 1)
  let _randomDriver := jpick drivers (d 2)
  let randomDeliveryAddress := jpick addressBooks (d 3)
  let randomPickupAddress := jpick addressBooks (d 4)
  let randomMenuItem := jpick menuItems (d 5)
  let randomMenuItemVariant := jpick menuItemVariants (d 6)
  let randomStatus := strPick VALID_ORDER_STATUSES (d 7)
  let randomPaymentMethod := strPick ["COD", "FWallet"] (d 8)
  let totalAmount : ℚ := d 9 * 500 + 100
  let deliveryFee : ℚ := d 10 * 30 + 15
  let serviceFee : ℚ := totalAmount * 0.05
  { customer_id := jsId randomCustomer
    restaurant_id := jsId randomRestaurant
    status := randomStatus
    total_amount := fix2 totalAmount
    delivery_fee := fix2 deliveryFee
    service_fee := fix2 serviceFee
    payment_status := if randomPaymentMethod = "COD" then "PENDING" else "PAID"
    payment_method := randomPaymentMethod
    customer_location := jsId randomDeliveryAddress
    restaurant_location := jsId randomPickupAddress
    order_items := [⟨jsId randomMenuItem, jsId randomMenuItemVariant,
      ((randomMenuItem.bind JVal.objName).getD "Unknown Item"),
      ⌊d 11 * 3⌋ + 1, fix2 (d 12 * 100 + 20)⟩]
    customer_note := strPick customerNotes (d 13)
    restaurant_note := strPick restaurantNotes (d 14)
    order_time := now
    delivery_time := ⌊d 15 * (3600 - 60 + 1)⌋ + 60
    tracking_info := "ORDER_PLACED" }

/-- The order `generateData` closure of the OLDER service version
(`src/data-pool/data-pool.service.ts`, `ensureOrders`, lines 745-807).
Identical draw layout; it differs from `orderGenCurrent` only in the
payment-method list (`COD` three times out of four) and in the
delivery-time computation (`order_time + Math.floor(Math.random() * 3600)
+ 1800`). -/
def orderGenOld (customers restaurants drivers addressBooks menuItems
    menuItemVariants : List JVal) (d : Nat → ℚ) (now : ℤ) : OrderPayload :=
  let randomCustomer := jpick customers (d 0)
  let randomRestaurant := jpick restaurants (d 1)
  let _randomDriver := jpick drivers (d 2)
  let randomDeliveryAddress := jpick addressBooks (d 3)
  let randomPickupAddress := jpick addressBooks (d 4)
  let randomMenuItem := jpick menuItems (d 5)
  let randomMenuItemVariant := jpick menuItemVariants (d 6)
  let randomStatus := strPick VALID_ORDER_STATUSES (d 7)
  let randomPaymentMethod := strPick ["COD", "COD", "COD", "FWallet"] (d 8)
  let totalAmount : ℚ := d 9 * 500 + 100
  let deliveryFee : ℚ := d 10 * 30 + 15
  let serviceFee : ℚ := totalAmount * 0.05
  { customer_id := jsId randomCustomer
    restaurant_id := jsId randomRestaurant
    status := randomStatus
    total_amount := fix2 totalAmount
    delivery_fee := fix2 deliveryFee
    service_fee := fix2 serviceFee
    payment_status := if randomPaymentMethod = "COD" then "PENDING" else "PAID"
    payment_method := randomPaymentMethod
    customer_location := jsId randomDeliveryAddress
    restaurant_location := jsId randomPickupAddress
    order_items := [⟨jsId randomMenuItem, jsId randomMenuItemVariant,
      ((randomMenuItem.bind JVal.objName).getD "Unknown Item"),
      ⌊d 11 * 3⌋ + 1, fix2 (d 12 * 100 + 20)⟩]
    customer_note := strPick customerNotes (d 13)
    restaurant_note := strPick restaurantNotes (d 14)
    order_time := now
    delivery_time := now + ⌊d 15 * 3600⌋ + 1800
    tracking_info := "ORDER_PLACED" }

/-- The forced-status order payload built inline by
`createSpecialStatusOrders` (lines 985-1031).  Draw indices: 0 customer,
1 restaurant, 2 delivery address, 3 pickup address, 4 menu item, 5 menu
item variant, 6 total amount, 7 delivery fee, 8 quantity, 9 item price,
10 delivery time.  No driver is drawn here. -/
def specialStatusOrderGen (customers restaurants addressBooks menuItems
    menuItemVariants : List JVal) (status : String) (d : Nat → ℚ)
    (now : ℤ) : OrderPayload :=
  let randomCustomer := jpick customers (d 0)
  let randomRestaurant := jpick restaurants (d 1)
  let randomDeliveryAddress := jpick addressBooks (d 2)
  let randomPickupAddress := jpick addressBooks (d 3)
  let randomMenuItem := jpick menuItems (d 4)
  let randomMenuItemVariant := jpick menuItemVariants (d 5)
  let totalAmount : ℚ := d 6 * 500 + 100
  let deliveryFee : ℚ := d 7 * 30 + 15
  let serviceFee : ℚ := totalAmount * 0.05
  { customer_id := jsId randomCustomer
    restaurant_id := jsId randomRestaurant
    status := status
    total_amount := fix2 totalAmount
    delivery_fee := fix2 deliveryFee
    service_fee := fix2 serviceFee
    payment_status := "PAID"
    payment_method := "COD"
    customer_location := jsId randomDeliveryAddress
    restaurant_location := jsId randomPickupAddress
    order_items := [⟨jsId randomMenuItem, jsId randomMenuItemVariant,
      ((randomMenuItem.bind JVal.objName).getD "Unknown Item"),
      ⌊d 8 * 3⌋ + 1, fix2 (d 9 * 100 + 20)⟩]
    customer_note := "Order with " ++ status ++ " status"
    restaurant_note := "Special " ++ status ++ " order"
    order_time := now
    delivery_time := ⌊d 10 * (3600 - 60 + 1)⌋ + 60
    tracking_info := if status = "DELIVERED" then "DELIVERED" else "CANCELLED" }

/-- One `contact_email` entry. -/
structure ContactEmailEntry where
  title : String
  email : String
  is_default : Bool
deriving DecidableEq, Repr

/-- One `contact_phone` entry. -/
structure ContactPhoneEntry where
  title : String
  number : String
  is_default : Bool
deriving DecidableEq, Repr

/-- The `status` block of a restaurant registration payload. -/
structure RestaurantStatusFlags where
  is_active : Bool
  is_open : Bool
  is_accepted_orders : Bool
deriving DecidableEq, Repr

/-- One day of `opening_hours` (fields `from` and `to` in JSON; `from` is
a Lean keyword, hence `fromTime`/`toTime` here). -/
structure DayHours where
  fromTime : ℤ
  toTime : ℤ
deriving DecidableEq, Repr

/-- The weekly `opening_hours` block. -/
structure OpeningHours where
  mon : DayHours
  tue : DayHours
  wed : DayHours
  thu : DayHours
  fri : DayHours
  sat : DayHours
  sun : DayHours
deriving DecidableEq, Repr

/-- The restaurant registration payload. -/
structure RestaurantPayload where
  email : String
  first_name : String
  last_name : String
  password : String
  owner_name : String
  restaurant_name : String
  address_id : Option String
  contact_email : List ContactEmailEntry
  contact_phone : List ContactPhoneEntry
  status : RestaurantStatusFlags
  opening_hours : OpeningHours
deriving DecidableEq, Repr

/-- The restaurant `generateData` closure (`ensureRestaurants`, lines
541-591).  Names: `nm 0` restaurant name, `nm 1` owner first name, `nm 2`
owner last name.  Draws: 0 address pick, 1 food-category pick (drawn but
not used by the payload), 2 phone number.  The only foreign key of the
payload is `address_id`. -/
def restaurantGen (addressBooks foodCategories : List JVal) (d : Nat → ℚ)
    (nm : Nat → String) : RestaurantPayload :=
  let randomAddress := jpick addressBooks (d 0)
  let _randomFoodCategory := jpick foodCategories (d 1)
  let restaurantName := nm 0
  let ownerFirstName := nm 1
  let ownerLastName := nm 2
  { email := (restaurantName.toLower.replace " " "") ++ "@restaurant.com"
    first_name := ownerFirstName
    last_name := ownerLastName
    password := "000000"
    owner_name := ownerFirstName ++ " " ++ ownerLastName
    restaurant_name := restaurantName ++ " Restaurant"
    address_id := jsId randomAddress
    contact_email := [⟨"Main Contact",
      "contact@" ++ (restaurantName.toLower.replace " " "") ++ ".com", true⟩]
    contact_phone := [⟨"Main Contact",
      "+84" ++ toString (⌊d 2 * 900000000⌋ + 100000000), true⟩]
    status := ⟨true, true, true⟩
    opening_hours := ⟨⟨900, 2200⟩, ⟨900, 2200⟩, ⟨900, 2200⟩, ⟨900, 2200⟩,
      ⟨900, 2300⟩, ⟨1000, 2300⟩, ⟨1000, 2200⟩⟩ }

/-- The `driver_fixed_wage` block of a finance-rule payload (JSON keys
are the distance bands `0-1km` .. `>5km`). -/
structure DriverFixedWage where
  km0to1 : ℤ
  km1to2 : ℤ
  km2to3 : ℤ
  km3to5 : ℤ
  over5km : String
deriving DecidableEq, Repr

/-- The finance-rule creation payload. -/
structure FinanceRulePayload where
  driver_fixed_wage : DriverFixedWage
  customer_care_hourly_wage : ℤ
  app_service_fee : ℚ
  restaurant_commission : ℚ
  created_by_id : Option String
  description : String
  updated_at : ℤ
deriving DecidableEq, Repr

/-- The finance-rule `generateData` closure (`ensureFinanceRules`, lines
506-527).  Draws: 0 super-admin pick, 1-4 wage bands, 5 hourly wage,
6 service fee, 7 commission.  The only foreign key is `created_by_id`,
drawn from the already-resolved super-admin pool. -/
def financeRuleGen (superAdmins : List JVal) (d : Nat → ℚ)
    (nm : Nat → String) (now : ℤ) : FinanceRulePayload :=
  let randomSuperAdmin := jpick superAdmins (d 0)
  { driver_fixed_wage := ⟨⌊d 1 * 3⌋ + 2, ⌊d 2 * 3⌋ + 3, ⌊d 3 * 3⌋ + 4,
      ⌊d 4 * 3⌋ + 5, "5 + 1.2*km"⟩
    customer_care_hourly_wage := ⌊d 5 * 10⌋ + 15
    app_service_fee := fix2 (d 6 * 0.1 + 0.05)
    restaurant_commission := fix2 (d 7 * 0.1 + 0.1)
    created_by_id := jsId randomSuperAdmin
    description := nm 0 ++ " finance rule for " ++ nm 1 ++ " operations"
    updated_at := now }

/-- An `avatar` / image block. -/
structure AvatarObj where
  url : String
  key : String
deriving DecidableEq, Repr

/-- One inline `variants` entry of a menu-item payload. -/
structure MenuVariantEntry where
  variant : String
  description : String
  price : ℚ
deriving DecidableEq, Repr

/-- The menu-item creation payload. -/
structure MenuItemPayload where
  restaurant_id : Option String
  name : String
  description : String
  price : ℚ
  category : List String
  avatar : AvatarObj
  availability : Bool
  suggest_notes : List String
  variants : List MenuVariantEntry
deriving DecidableEq, Repr

/-- The menu-item `generateData` closure (`ensureMenuItems`, lines
617-667).  Draws: 0 dish, 1 restaurant pick, 2 food-category pick,
3 price, 4 description, 5 suggest-notes count.  Foreign keys:
`restaurant_id`, and `category` which is `[foodCategory?.id || null]
.filter(Boolean)` (empty when the pick has no id). -/
def menuItemGen (restaurants foodCategories : List JVal) (d : Nat → ℚ)
    (nm : Nat → String) : MenuItemPayload :=
  let dish := strPick ["Pho", "Banh Mi", "Spring Rolls", "Fried Rice",
    "Noodle Soup", "Grilled Chicken", "Beef Stew", "Fish Curry",
    "Vegetable Stir Fry", "Pork Ribs"] (d 0)
  let randomRestaurant := jpick restaurants (d 1)
  let randomFoodCategory := jpick foodCategories (d 2)
  let dishName := nm 0 ++ " " ++ dish
  let price := fix2 (d 3 * 200 + 50)
  let description := strPick ["Delicious and authentic",
    "Fresh ingredients with traditional flavors",
    "Perfectly seasoned and cooked to perfection",
    "A local favorite with amazing taste", "Crispy and flavorful"] (d 4)
  { restaurant_id := jsId randomRestaurant
    name := dishName
    description := description ++ " " ++ dish.toLower ++ " prepared with fresh ingredients"
    price := price
    category := (jsId randomFoodCategory).toList
    avatar := ⟨"https://via.placeholder.com/300x200",
      (dishName.toLower.replace " " "-") ++ "-" ++ nm 1⟩
    availability := true
    suggest_notes := (["Extra sauce", "No onions", "Spicy", "Less salt"]).take
      (⌊d 5 * 3⌋ + 1).toNat
    variants := [⟨"Regular", "Standard size " ++ dishName.toLower, price⟩,
      ⟨"Large", "Large size " ++ dishName.toLower ++ " with extra portions",
        fix2 (price * 1.3)⟩] }

/-- The menu-item-variant creation payload. -/
structure MenuItemVariantPayload where
  menu_id : Option String
  variant : String
  description : String
  price : ℚ
  availability : Bool
deriving DecidableEq, Repr

/-- The menu-item-variant `generateData` closure (`ensureMenuItemVariants`,
lines 682-703).  Draws: 0 menu-item pick, 1 size, 2 spice level, 3 the
`Math.random() > 0.5` name coin, 4 base price, 5 the availability coin.
The only foreign key is `menu_id`. -/
def menuItemVariantGen (menuItems : List JVal) (d : Nat → ℚ) : MenuItemVariantPayload :=
  let randomMenuItem := jpick menuItems (d 0)
  let randomSize := strPick ["Small", "Medium", "Large"] (d 1)
  let randomSpiceLevel := strPick ["Mild", "Medium", "Spicy", "Extra Spicy"] (d 2)
  let variantName := if d 3 > 0.5 then randomSize
    else randomSize ++ " - " ++ randomSpiceLevel
  let basePrice := d 4 * 50 + 20
  { menu_id := jsId randomMenuItem
    variant := variantName
    description := variantName ++ " variant with " ++ randomSpiceLevel.toLower ++ " spice level"
    price := fix2 basePrice
    availability := d 5 > 0.1 }

/-- The promotion creation payload. -/
structure PromotionPayload where
  name : String
  description : String
  start_date : ℤ
  end_date : ℤ
  discount_type : String
  discount_value : ℤ
  promotion_cost_price : ℤ
  minimum_order_value : ℤ
  status : String
  food_category_ids : List String
deriving DecidableEq, Repr

/-- The promotion `generateData` closure (`ensurePromotions`, lines
717-751).  Draws: 0 food-category pick, 1 promo name, 2 discount type,
3 discount value, 4 cost price, 5 minimum order value, 6 status.  The
only foreign key list is `food_category_ids`. -/
def promotionGen (foodCategories : List JVal) (d : Nat → ℚ)
    (nm : Nat → String) (now : ℤ) : PromotionPayload :=
  let randomFoodCategory := jpick foodCategories (d 0)
  let promoName := strPick ["Summer Special", "Weekend Deal", "Happy Hour",
    "Flash Sale", "Mega Discount"] (d 1) ++ " " ++ nm 0
  let discountType := strPick ["PERCENTAGE", "FIXED", "BOGO"] (d 2)
  let discountValue := if discountType = "PERCENTAGE" then ⌊d 3 * 50⌋ + 5
    else ⌊d 3 * 100⌋ + 10
  { name := promoName
    description := "Get amazing " ++ discountType.toLower ++ " discounts with our " ++ promoName.toLower
    start_date := now
    end_date := now + 30 * 24 * 60 * 60
    discount_type := discountType
    discount_value := discountValue
    promotion_cost_price := ⌊d 4 * 200⌋ + 50
    minimum_order_value := ⌊d 5 * 500⌋ + 100
    status := strPick ["ACTIVE", "PENDING"] (d 6)
    food_category_ids := (jsId randomFoodCategory).toList }

/-- The driver registration payload. -/
structure DriverPayload where
  email : String
  password : String
  first_name : String
  last_name : String
  contact_email : List ContactEmailEntry
  contact_phone : List ContactPhoneEntry
deriving DecidableEq, Repr

/-- The driver `generateData` closure (`ensureDrivers`, lines 764-793).
Draw 0 picks an address from the captured pool, but the resulting
`randomAddress` is never used by the payload; draw 1 is the phone number.
The payload has no foreign-key field. -/
def driverGen (addressBooks : List JVal) (d : Nat → ℚ)
    (nm : Nat → String) : DriverPayload :=
  let _randomAddress := jpick addressBooks (d 0)
  let firstName := nm 0
  let lastName := nm 1
  let driverEmail := firstName.toLower ++ "." ++ lastName.toLower ++ "@driver.com"
  { email := driverEmail
    password := "000000"
    first_name := firstName
    last_name := lastName
    contact_email := [⟨"Primary", driverEmail, true⟩]
    contact_phone := [⟨"Primary",
      "+84" ++ toString (⌊d 1 * 900000000⌋ + 100000000), true⟩] }

/-- The plain registration payload shared by the customer and
customer-care generators. -/
structure RegisterPayload where
  email : String
  first_name : String
  last_name : String
  password : String
deriving DecidableEq, Repr

/-- The customer `generateData` closure (`ensureCustomers`, lines
802-814).  No draws, no foreign keys. -/
def customerGen (nm : Nat → String) : RegisterPayload :=
  let firstName := nm 0
  let lastName := nm 1
  { email := firstName.toLower ++ "." ++ lastName.toLower ++ "@customer.com"
    first_name := firstName
    last_name := lastName
    password := "000000" }

/-- The customer-care `generateData` closure (`ensureCustomerCares`,
lines 822-833).  No draws, no foreign keys. -/
def customerCareGen (nm : Nat → String) : RegisterPayload :=
  let firstName := nm 0
  let lastName := nm 1
  { email := firstName.toLower ++ "." ++ lastName.toLower ++ "@support.com"
    first_name := firstName
    last_name := lastName
    password := "000000" }

/-- A geographic point. -/
structure GeoLocation where
  lng : ℚ
  lat : ℚ
deriving DecidableEq, Repr

/-- The address-book creation payload. -/
structure AddressBookPayload where
  street : String
  city : String
  nationality : String
  postal_code : ℤ
  location : GeoLocation
  title : String
deriving DecidableEq, Repr

/-- The address-book `generateData` closure (`ensureAddressBooks`, lines
319-329).  Draws: 0 street number, 1 postal code, 2 longitude offset,
3 latitude offset.  No foreign keys. -/
def addressBookGen (d : Nat → ℚ) (nm : Nat → String) : AddressBookPayload :=
  { street := toString (⌊d 0 * 999⌋ + 1) ++ " " ++ nm 0 ++ " Street"
    city := nm 1
    nationality := "Vietnam"
    postal_code := ⌊d 1 * 90000⌋ + 10000
    location := ⟨106.6297 + (d 2 - 0.5) * 0.1, 10.8231 + (d 3 - 0.5) * 0.1⟩
    title := nm 2 ++ " Location" }

/-- The food-category creation payload. -/
structure FoodCategoryPayload where
  name : String
  description : String
  avatar : AvatarObj
deriving DecidableEq, Repr

/-- The food-category `generateData` closure (`ensureFoodCategories`,
lines 351-362).  Draw 0 picks the cuisine.  No foreign keys. -/
def foodCategoryGen (d : Nat → ℚ) (nm : Nat → String) : FoodCategoryPayload :=
  let category := strPick ["Vietnamese", "Chinese", "Japanese", "Korean",
    "Thai", "Italian", "American", "Mexican", "Indian", "French"] (d 0)
  { name := category ++ " " ++ nm 0
    description := "Delicious " ++ category.toLower ++ " cuisine with authentic flavors"
    avatar := ⟨"https://via.placeholder.com/300x200", "food_category_" ++ nm 1⟩ }

/-- The customer-care-inquiry creation payload. -/
structure InquiryPayload where
  customer_id : Option String
  subject : String
  description : String
  status : String
  issue_type : String
deriving DecidableEq, Repr

/-- The customer-care-inquiry `generateData` closure
(`ensureCustomerCareInquiries`, lines 1486-1525).  The source fixes
`entityTypes` to the string `customer`, so the customer branch always
runs: draw 0 picks the customer, draws 1-4 pick the texts.  The only
foreign key is `customer_id`. -/
def inquiryGen (customers : List JVal) (d : Nat → ℚ) : InquiryPayload :=
  let customerId := jsId (jpick customers (d 0))
  { customer_id := customerId
    subject := strPick ["Payment Issue", "Order Problem", "Delivery Delay",
      "Account Access", "Refund Request", "Technical Support",
      "General Inquiry"] (d 1)
    description := strPick ["I'm having trouble with my recent order",
      "Payment was charged but order not received",
      "Delivery driver never arrived", "Cannot access my account",
      "Need refund for cancelled order", "App is not working properly",
      "General question about service"] (d 2)
    status := strPick ["OPEN", "IN_PROGRESS", "RESOLVED", "CLOSED",
      "ESCALATE"] (d 3)
    issue_type := strPick ["ACCOUNT", "PAYMENT", "PRODUCT", "DELIVERY",
      "REFUND", "TECHNICAL", "OTHER"] (d 4) }

/-- The rating-review creation payload.  The JS object carries exactly one
reviewer id key and one recipient id key (the spread of the chosen
branch); the other four are absent, i.e. `none`. -/
structure RatingReviewPayload where
  rr_reviewer_customer_id : Option String
  rr_reviewer_driver_id : Option String
  rr_reviewer_restaurant_id : Option String
  reviewer_type : String
  rr_recipient_customer_id : Option String
  rr_recipient_driver_id : Option String
  rr_recipient_restaurant_id : Option String
  recipient_type : String
  order_id : Option String
  food_rating : ℤ
  delivery_rating : ℤ
  food_review : String
  delivery_review : String
  images : List AvatarObj
deriving DecidableEq, Repr

/-- The rating-review `generateData` closure (`ensureRatingReviews`,
lines 1540-1604).  Draws: 0 reviewer type, 1 recipient type, 2 customer
pick, 3 driver pick, 4 restaurant pick, 5 order pick, 6 food rating,
7 delivery rating, 8 food review, 9 delivery review, 10 image number. -/
def ratingReviewGen (customers drivers restaurants orders : List JVal)
    (d : Nat → ℚ) (nm : Nat → String) : RatingReviewPayload :=
  let userTypes := ["customer", "driver", "restaurant"]
  let reviewerType := strPick userTypes (d 0)
  let recipientType := strPick userTypes (d 1)
  let randomCustomer := jpick customers (d 2)
  let randomDriver := jpick drivers (d 3)
  let randomRestaurant := jpick restaurants (d 4)
  let randomOrder := jpick orders (d 5)
  { rr_reviewer_customer_id :=
      if reviewerType = "customer" then jsId randomCustomer else none
    rr_reviewer_driver_id :=
      if reviewerType = "customer" then none
      else if reviewerType = "driver" then jsId randomDriver else none
    rr_reviewer_restaurant_id :=
      if reviewerType = "customer" then none
      else if reviewerType = "driver" then none
      else jsId randomRestaurant
    reviewer_type := reviewerType
    rr_recipient_customer_id :=
      if recipientType = "customer" then jsId randomCustomer else none
    rr_recipient_driver_id :=
      if recipientType = "customer" then none
      else if recipientType = "driver" then jsId randomDriver else none
    rr_recipient_restaurant_id :=
      if recipientType = "customer" then none
      else if recipientType = "driver" then none
      else jsId randomRestaurant
    recipient_type := recipientType
    order_id := jsId randomOrder
    food_rating := ⌊d 6 * 5⌋ + 1
    delivery_rating := ⌊d 7 * 5⌋ + 1
    food_review := strPick ["Delicious food, highly recommended!",
      "Food was okay, could be better", "Amazing taste and quality",
      "Not satisfied with the food quality",
      "Perfect meal, will order again"] (d 8)
    delivery_review := strPick ["Fast and professional delivery",
      "Delivery was delayed but driver was polite",
      "Excellent delivery service", "Food arrived cold",
      "Great delivery experience"] (d 9)
    images := [⟨"https://via.placeholder.com/300x200?text=Review" ++
      toString ⌊d 10 * 100⌋, "review_img_" ++ nm 0⟩] }

/-! ### The service methods

Each `ensure*` method below mirrors one method of `DataPoolService`.  The
orchestrator only ever inspects `payment_method`, `customer_id` and
`restaurant_id` of a submitted payload; every generator except the order
generators produces a payload without those properties, so its
orchestrator-visible projection is constantly `none`/`none`/`none`. -/

/-- Orchestrator-visible projection of any non-order generator. -/
def plainGen : Nat → Payload := fun _ => ⟨none, none, none⟩

/-- The oracle inputs of the randomised order payloads that the
orchestrator can actually observe (payment method and the two wallet
ids), per generator invocation: `orderDraws att n` is the n-th
`Math.random()` of the order generator on attempt `att`;
`specialDelDraws` / `specialCanDraws` feed `createSpecialStatusOrders`
for the DELIVERED / CANCELLED batches; `now` is `Date.now() / 1000`. -/
structure Draws where
  orderDraws : Nat → Nat → ℚ
  specialDelDraws : Nat → Nat → ℚ
  specialCanDraws : Nat → Nat → ℚ
  now : ℤ

/-- `ensureAddressBooks` (lines 314-331). -/
def ensureAddressBooks : M (List JVal) :=
  ensureEntityPool "AddressBooks" "/address_books" "/address_books" plainGen

/-- `ensureFoodCategories` (lines 333-364). -/
def ensureFoodCategories : M (List JVal) :=
  ensureEntityPool "FoodCategories" "/food-categories" "/food-categories" plainGen

/-- The shared body of `ensureSuperAdmins` / `ensureFinanceAdmins` /
`ensureCompanionAdmins` (lines 366-496; the three methods are verbatim
identical up to the role path, the registration path and the literal
strings of the posted payload, none of which the control flow reads).
Note the source checks neither the `EC` of the role read nor the `EC` of
the registration POST, and performs no `Array.isArray` check: a truthy
non-array `data` fails the `length >= 1` test (`undefined >= 1` is
false), so the creation POST is issued, after which the array spread
`[...currentData, ...newAdmin]` throws and the `catch` returns `[]`. -/
def ensureSingletonAdmin (rolePath postPath : String) : M (List JVal) := do
  let response ← httpGet rolePath
  match response with
  | .thrown => pure []
  | .resp _ d =>
    let currentData := if d.truthy then d else JVal.jarr []
    match currentData with
    | .jarr xs =>
      if 1 ≤ xs.length then
        pure (xs.take 1)
      else do
        let postResponse ← httpPost postPath ⟨none, none, none⟩
        match postResponse with
        | .thrown => pure []
        | .resp _ pd =>
          let newAdmin := if pd.truthy then [pd] else []
          pure ((xs ++ newAdmin).take 1)
    | _ => do
      let _ ← httpPost postPath ⟨none, none, none⟩
      pure []

/-- `ensureSuperAdmins` (lines 366-408). -/
def ensureSuperAdmins : M (List JVal) :=
  ensureSingletonAdmin "/admin-fake/by-role/SUPER_ADMIN"
    "/auth/register-super-admin?is-generated=true"

/-- `ensureFinanceAdmins` (lines 410-452). -/
def ensureFinanceAdmins : M (List JVal) :=
  ensureSingletonAdmin "/admin-fake/by-role/FINANCE_ADMIN"
    "/auth/register-finance-admin?is-generated=true"

/-- `ensureCompanionAdmins` (lines 454-496). -/
def ensureCompanionAdmins : M (List JVal) :=
  ensureSingletonAdmin "/admin-fake/by-role/COMPANION_ADMIN"
    "/auth/register-companion-admin?is-generated=true"

/-- `ensureFinanceRules` (lines 498-530): resolves the super-admin pool
first (the generator closes over it via `created_by_id`; see
`financeRuleGen` for the payload itself). -/
def ensureFinanceRules : M (List JVal) := do
  let _superAdmins ← ensureSuperAdmins
  ensureEntityPool "FinanceRules" "/finance-rules" "/finance-rules" plainGen

/-- `ensureRestaurants` (lines 532-593): awaits `ensureAddressBooks`,
then `ensureFoodCategories`, then runs the pool logic with the restaurant
generator (see `restaurantGen`). -/
def ensureRestaurants : M (List JVal) := do
  let _addressBooks ← ensureAddressBooks
  let _foodCategories ← ensureFoodCategories
  ensureEntityPool "Restaurants" "/restaurants"
    "/auth/register-restaurant?is-generated=true" plainGen

/-- `ensureMenuItems` (lines 595-669). -/
def ensureMenuItems : M (List JVal) := do
  let _restaurants ← ensureRestaurants
  let _foodCategories ← ensureFoodCategories
  ensureEntityPool "MenuItems" "/menu-items" "/menu-items" plainGen

/-- `ensureMenuItemVariants` (lines 671-705). -/
def ensureMenuItemVariants : M (List JVal) := do
  let _menuItems ← ensureMenuItems
  ensureEntityPool "MenuItemVariants" "/menu-item-variants"
    "/menu-item-variants" plainGen

/-- `ensurePromotions` (lines 707-754). -/
def ensurePromotions : M (List JVal) := do
  let _foodCategories ← ensureFoodCategories
  ensureEntityPool "Promotions" "/promotions" "/promotions" plainGen

/-- `ensureDrivers` (lines 756-795). -/
def ensureDrivers : M (List JVal) := do
  let _addressBooks ← ensureAddressBooks
  ensureEntityPool "Drivers" "/drivers"
    "/auth/register-driver?is-generated=true" plainGen

/-- `ensureCustomers` (lines 797-815). -/
def ensureCustomers : M (List JVal) :=
  ensureEntityPool "Customers" "/customers"
    "/auth/register-customer?is-generated=true" plainGen

/-- `ensureCustomerCares` (lines 817-835). -/
def ensureCustomerCares : M (List JVal) :=
  ensureEntityPool "CustomerCares" "/customer-cares"
    "/auth/register-customer-care?is-generated=true" plainGen

/-- The `for` loop of `createSpecialStatusOrders` (lines 985-1053): posts
`count` forced-status orders one by one; a failed or thrown POST is
logged and the loop continues. -/
def specialOrderLoop (customers restaurants addressBooks menuItems
    menuItemVariants : List JVal) (status : String) (sd : Nat → Nat → ℚ)
    (now : ℤ) : Nat → Nat → M Unit
  | 0, _ => pure ()
  | n + 1, i => do
    let _ ← httpPost "/orders?is-generated=true"
      (specialStatusOrderGen customers restaurants addressBooks menuItems
        menuItemVariants status (sd i) now).proj
    specialOrderLoop customers restaurants addressBooks menuItems
      menuItemVariants status sd now n (i + 1)

/-- `createSpecialStatusOrders` (lines 974-1054): resolves the six
upstream pools, then posts `count` orders with the forced status.  All
posts use payment method COD, so the FWallet block never runs here. -/
def createSpecialStatusOrders (status : String) (count : Nat)
    (sd : Nat → Nat → ℚ) (now : ℤ) : M Unit := do
  let customers ← ensureCustomers
  let restaurants ← ensureRestaurants
  let _drivers ← ensureDrivers
  let addressBooks ← ensureAddressBooks
  let menuItems ← ensureMenuItems
  let menuItemVariants ← ensureMenuItemVariants
  specialOrderLoop customers restaurants addressBooks menuItems
    menuItemVariants status sd now count 0

/-- `ensureSpecialStatusOrders` (lines 936-971).  The read result is
coerced with `|| []` but its `EC` is not checked; the `if` block only
runs when the data is an array.  Reading `.status` of a `null` array
element throws, which the `catch` absorbs (the whole check is skipped). -/
def ensureSpecialStatusOrders (dw : Draws) : M Unit := do
  let response ← httpGet "/orders"
  match response with
  | .thrown => pure ()
  | .resp _ d =>
    let currentOrders := if d.truthy then d else JVal.jarr []
    match currentOrders with
    | .jarr xs =>
      if xs.any (fun o => match o with | .jnull => true | _ => false) then
        pure ()
      else
        let deliveredCount := xs.countP (fun o => o.objStatus == some "DELIVERED")
        let cancelledCount := xs.countP (fun o => o.objStatus == some "CANCELLED")
        let neededDelivered := 5 - deliveredCount
        let neededCancelled := 2 - cancelledCount
        do
          if 0 < neededDelivered then
            createSpecialStatusOrders "DELIVERED" neededDelivered
              dw.specialDelDraws dw.now
          else
            pure ()
          if 0 < neededCancelled then
            createSpecialStatusOrders "CANCELLED" neededCancelled
              dw.specialCanDraws dw.now
          else
            pure ()
    | _ => pure ()

/-- `ensureOrders` (lines 837-933): resolves the six upstream pools, runs
the special-status check, then the generic pool logic with the current
order generator. -/
def ensureOrders (dw : Draws) : M (List JVal) := do
  let customers ← ensureCustomers
  let restaurants ← ensureRestaurants
  let drivers ← ensureDrivers
  let addressBooks ← ensureAddressBooks
  let menuItems ← ensureMenuItems
  let menuItemVariants ← ensureMenuItemVariants
  ensureSpecialStatusOrders dw
  ensureEntityPool "Orders" "/orders" "/orders?is-generated=true"
    (fun att => (orderGenCurrent customers restaurants drivers addressBooks
      menuItems menuItemVariants (dw.orderDraws att) dw.now).proj)

/-- `ensureCustomerCareInquiries` (lines 1476-1527). -/
def ensureCustomerCareInquiries : M (List JVal) := do
  let _customers ← ensureCustomers
  let _drivers ← ensureDrivers
  let _restaurants ← ensureRestaurants
  ensureEntityPool "CustomerCareInquiries" "/customer-care-inquiries"
    "/customer-care-inquiries" plainGen

/-- `ensureRatingReviews` (lines 1529-1607). -/
def ensureRatingReviews (dw : Draws) : M (List JVal) := do
  let _customers ← ensureCustomers
  let _drivers ← ensureDrivers
  let _restaurants ← ensureRestaurants
  let _orders ← ensureOrders dw
  ensureEntityPool "RatingReviews" "/ratings-reviews" "/ratings-reviews" plainGen

/-- `ensureDataPools` (lines 30-79): cache check, then the sixteen pools
strictly in the dependency order of the source object literal, then one
cache write of the full aggregate with the configured TTL. -/
def ensureDataPools (dw : Draws) : M Pools := do
  let cachedPools ← redisGet cacheKey
  match cachedPools with
  | some v => pure (parsePools v)
  | none => do
    let addressBooks ← ensureAddressBooks
    let foodCategories ← ensureFoodCategories
    let superAdmins ← ensureSuperAdmins
    let financeAdmins ← ensureFinanceAdmins
    let companionAdmins ← ensureCompanionAdmins
    let financeRules ← ensureFinanceRules
    let restaurants ← ensureRestaurants
    let menuItems ← ensureMenuItems
    let menuItemVariants ← ensureMenuItemVariants
    let promotions ← ensurePromotions
    let drivers ← ensureDrivers
    let customers ← ensureCustomers
    let customerCares ← ensureCustomerCares
    let orders ← ensureOrders dw
    let customerCareInquiries ← ensureCustomerCareInquiries
    let ratingReviews ← ensureRatingReviews dw
    let pools : Pools := ⟨addressBooks, foodCategories, superAdmins,
      financeAdmins, companionAdmins, financeRules, restaurants, menuItems,
      menuItemVariants, promotions, drivers, customers, customerCares,
      orders, customerCareInquiries, ratingReviews⟩
    redisSet cacheKey (CacheVal.pools pools) (cacheTtl * 1000)
    pure pools

/-- `getDataPools` (lines 1056-1062). -/
def getDataPools (dw : Draws) : M Pools := do
  let cachedPools ← redisGet cacheKey
  match cachedPools with
  | some v => pure (parsePools v)
  | none => ensureDataPools dw

/-- `refreshDataPools` (lines 1064-1067). -/
def refreshDataPools (dw : Draws) : M Pools := do
  redisDel cacheKey
  ensureDataPools dw

/-! ### Proof infrastructure -/

/-- Unfolding application of `bind` in `M`. -/
theorem bind_apply {α β : Type} (m : M α) (f : α → M β) (s : St) :
    (m >>= f) s = f (m s).1 (m s).2 := rfl

/-- Unfolding application of `pure` in `M`. -/
theorem pure_apply {α : Type} (a : α) (s : St) : (pure a : M α) s = (a, s) := rfl

/-- Number of POST (remote write) events in a trace. -/
def postCount (t : List Event) : Nat :=
  t.countP fun e => match e with | .hPost _ _ => true | _ => false

/-- Number of GET (remote read) events in a trace. -/
def getCount (t : List Event) : Nat :=
  t.countP fun e => match e with | .hGet _ => true | _ => false

/-- The cache-write events of a trace, in order. -/
def setEvents (t : List Event) : List Event :=
  t.filter fun e => match e with | .cSet _ _ => true | _ => false

/-- Whether a trace contains a generator invocation for `entityName`. -/
def hasGenCall (entityName : String) (t : List Event) : Bool :=
  t.any fun e => match e with | .genCall n => n == entityName | _ => false

theorem postCount_append (t u : List Event) :
    postCount (t ++ u) = postCount t + postCount u := by
  simp [postCount, List.countP_append]

theorem getCount_append (t u : List Event) :
    getCount (t ++ u) = getCount t + getCount u := by
  simp [getCount, List.countP_append]

theorem setEvents_append (t u : List Event) :
    setEvents (t ++ u) = setEvents t ++ setEvents u := by
  simp [setEvents]

theorem hasGenCall_append (n : String) (t u : List Event) :
    hasGenCall n (t ++ u) = (hasGenCall n t || hasGenCall n u) := by
  simp [hasGenCall, List.any_append]

/-- Case analysis of one cycle: thrown POST. -/
theorem attemptCycle_thrown (e p : String) (pm : Payload) (s : St)
    (h : s.env s.k = .thrown) :
    attemptCycle e p pm s =
      (none, ⟨s.env, s.k + 1, s.cache, s.trace ++ [Event.hPost p pm]⟩) := by
  unfold attemptCycle
  simp only [bind_apply, httpPost, h]
  rfl

/-- Case analysis of one cycle: POST responded but did not count as a
successful creation (`EC !== 0` or falsy `data`). -/
theorem attemptCycle_fail (e p : String) (pm : Payload) (s : St) (ec : Int)
    (d : JVal) (h : s.env s.k = .resp ec d) (hf : ¬(ec = 0 ∧ d.truthy)) :
    attemptCycle e p pm s =
      (none, ⟨s.env, s.k + 1, s.cache, s.trace ++ [Event.hPost p pm]⟩) := by
  unfold attemptCycle
  simp only [bind_apply, httpPost, h]
  simp [hf, pure_apply]

/-- Case analysis of one cycle: successful POST outside the FWallet
special case (not an order, or not paid by FWallet). -/
theorem attemptCycle_plain (e p : String) (pm : Payload) (s : St) (d : JVal)
    (h : s.env s.k = .resp 0 d) (ht : d.truthy)
    (hw : ¬(e = "Orders" ∧ pm.payment_method = some "FWallet")) :
    attemptCycle e p pm s =
      (some d, ⟨s.env, s.k + 1, s.cache, s.trace ++ [Event.hPost p pm]⟩) := by
  unfold attemptCycle
  simp only [bind_apply, httpPost, h]
  simp [ht, hw, pure_apply]

/-- Case analysis of one cycle, FWallet block: the customer wallet GET
throws; the inner catch drops the created record. -/
theorem attemptCycle_w1_thrown (p : String) (pm : Payload) (s : St) (d : JVal)
    (hpm : pm.payment_method = some "FWallet")
    (h : s.env s.k = .resp 0 d) (ht : d.truthy)
    (h1 : s.env (s.k + 1) = .thrown) :
    attemptCycle "Orders" p pm s =
      (none, ⟨s.env, s.k + 2, s.cache, s.trace ++
        [Event.hPost p pm,
         Event.hGet ("/fwallets/by-user/" ++ jsStr pm.customer_id)]⟩) := by
  unfold attemptCycle
  simp [bind_apply, pure_apply, httpPost, httpGet, h, ht, hpm, h1,
    List.append_assoc]

/-- Case analysis of one cycle, FWallet block: the restaurant wallet GET
throws after the customer wallet responded. -/
theorem attemptCycle_w2_thrown (p : String) (pm : Payload) (s : St) (d : JVal)
    (ec1 : Int) (d1 : JVal)
    (hpm : pm.payment_method = some "FWallet")
    (h : s.env s.k = .resp 0 d) (ht : d.truthy)
    (h1 : s.env (s.k + 1) = .resp ec1 d1)
    (h2 : s.env (s.k + 2) = .thrown) :
    attemptCycle "Orders" p pm s =
      (none, ⟨s.env, s.k + 3, s.cache, s.trace ++
        [Event.hPost p pm,
         Event.hGet ("/fwallets/by-user/" ++ jsStr pm.customer_id),
         Event.hGet ("/fwallets/by-user/" ++ jsStr pm.restaurant_id)]⟩) := by
  unfold attemptCycle
  simp [bind_apply, pure_apply, httpPost, httpGet, h, ht, hpm, h1, h2,
    List.append_assoc]

/-- Case analysis of one cycle, FWallet block: the platform wallet GET
throws after the first two responded. -/
theorem attemptCycle_w3_thrown (p : String) (pm : Payload) (s : St) (d : JVal)
    (ec1 : Int) (d1 : JVal) (ec2 : Int) (d2 : JVal)
    (hpm : pm.payment_method = some "FWallet")
    (h : s.env s.k = .resp 0 d) (ht : d.truthy)
    (h1 : s.env (s.k + 1) = .resp ec1 d1)
    (h2 : s.env (s.k + 2) = .resp ec2 d2)
    (h3 : s.env (s.k + 3) = .thrown) :
    attemptCycle "Orders" p pm s =
      (none, ⟨s.env, s.k + 4, s.cache, s.trace ++
        [Event.hPost p pm,
         Event.hGet ("/fwallets/by-user/" ++ jsStr pm.customer_id),
         Event.hGet ("/fwallets/by-user/" ++ jsStr pm.restaurant_id),
         Event.hGet "/fwallets/by-user/FLASHFOOD_FINANCE"]⟩) := by
  unfold attemptCycle
  simp [bind_apply, pure_apply, httpPost, httpGet, h, ht, hpm, h1, h2, h3,
    List.append_assoc]

/-- Case analysis of one cycle, FWallet block: all three wallet GETs
responded but at least one had a non-zero error code; no cache write, the
creation still counts. -/
theorem attemptCycle_wallet_nonzero (p : String) (pm : Payload) (s : St)
    (d : JVal) (ec1 : Int) (d1 : JVal) (ec2 : Int) (d2 : JVal) (ec3 : Int)
    (d3 : JVal)
    (hpm : pm.payment_method = some "FWallet")
    (h : s.env s.k = .resp 0 d) (ht : d.truthy)
    (h1 : s.env (s.k + 1) = .resp ec1 d1)
    (h2 : s.env (s.k + 2) = .resp ec2 d2)
    (h3 : s.env (s.k + 3) = .resp ec3 d3)
    (hz : ¬(ec1 = 0 ∧ ec2 = 0 ∧ ec3 = 0)) :
    attemptCycle "Orders" p pm s =
      (some d, ⟨s.env, s.k + 4, s.cache, s.trace ++
        [Event.hPost p pm,
         Event.hGet ("/fwallets/by-user/" ++ jsStr pm.customer_id),
         Event.hGet ("/fwallets/by-user/" ++ jsStr pm.restaurant_id),
         Event.hGet "/fwallets/by-user/FLASHFOOD_FINANCE"]⟩) := by
  unfold attemptCycle
  simp [bind_apply, pure_apply, httpPost, httpGet, h, ht, hpm, h1, h2, h3,
    hz, List.append_assoc]

/-- Case analysis of one cycle, FWallet block: all three wallet GETs
responded with error code 0; exactly the three wallet cache keys are
written with a TTL of 7200 seconds (7200000 ms). -/
theorem attemptCycle_wallet_zero (p : String) (pm : Payload) (s : St)
    (d : JVal) (d1 : JVal) (d2 : JVal) (d3 : JVal)
    (hpm : pm.payment_method = some "FWallet")
    (h : s.env s.k = .resp 0 d) (ht : d.truthy)
    (h1 : s.env (s.k + 1) = .resp 0 d1)
    (h2 : s.env (s.k + 2) = .resp 0 d2)
    (h3 : s.env (s.k + 3) = .resp 0 d3) :
    attemptCycle "Orders" p pm s =
      (some d, ⟨s.env, s.k + 4,
        ("fwallet:FLASHFOOD_FINANCE", CacheVal.jval d3) ::
        ("fwallet:" ++ jsStr pm.restaurant_id, CacheVal.jval d2) ::
        ("fwallet:" ++ jsStr pm.customer_id, CacheVal.jval d1) :: s.cache,
        s.trace ++
        [Event.hPost p pm,
         Event.hGet ("/fwallets/by-user/" ++ jsStr pm.customer_id),
         Event.hGet ("/fwallets/by-user/" ++ jsStr pm.restaurant_id),
         Event.hGet "/fwallets/by-user/FLASHFOOD_FINANCE",
         Event.cSet ("fwallet:" ++ jsStr pm.customer_id) (7200 * 1000),
         Event.cSet ("fwallet:" ++ jsStr pm.restaurant_id) (7200 * 1000),
         Event.cSet "fwallet:FLASHFOOD_FINANCE" (7200 * 1000)]⟩) := by
  unfold attemptCycle
  simp [bind_apply, pure_apply, httpPost, httpGet, redisSet, h, ht, hpm,
    h1, h2, h3, List.append_assoc]

/-- Frame property of one cycle: the oracle is unchanged, the new trace
contains exactly one POST and no generator invocation, and a counted
creation is the `data` of a backend response with error code 0 and truthy
data. -/
theorem attemptCycle_frame (e p : String) (pm : Payload) (s : St) :
    ∃ δ : List Event,
      (attemptCycle e p pm s).2.env = s.env ∧
      (attemptCycle e p pm s).2.trace = s.trace ++ δ ∧
      postCount δ = 1 ∧
      (∀ n, hasGenCall n δ = false) ∧
      (∀ v, (attemptCycle e p pm s).1 = some v →
        ∃ j, s.env j = HttpOutcome.resp 0 v ∧ v.truthy = true) := by
  by_cases hw : e = "Orders" ∧ pm.payment_method = some "FWallet"
  · obtain ⟨he, hpm⟩ := hw
    subst he
    cases h : s.env s.k with
    | thrown =>
      rw [attemptCycle_thrown _ p pm s h]
      exact ⟨[Event.hPost p pm], rfl, rfl, by simp [postCount],
        by intro n; simp [hasGenCall], by intro v hv; simp at hv⟩
    | resp ec d =>
      by_cases hs : ec = 0 ∧ d.truthy
      · obtain ⟨hec, ht⟩ := hs
        subst hec
        cases h1 : s.env (s.k + 1) with
        | thrown =>
          rw [attemptCycle_w1_thrown p pm s d hpm h ht h1]
          exact ⟨_, rfl, rfl, by simp [postCount],
            by intro n; simp [hasGenCall], by intro v hv; simp at hv⟩
        | resp ec1 d1 =>
          cases h2 : s.env (s.k + 2) with
          | thrown =>
            rw [attemptCycle_w2_thrown p pm s d ec1 d1 hpm h ht h1 h2]
            exact ⟨_, rfl, rfl, by simp [postCount],
              by intro n; simp [hasGenCall], by intro v hv; simp at hv⟩
          | resp ec2 d2 =>
            cases h3 : s.env (s.k + 3) with
            | thrown =>
              rw [attemptCycle_w3_thrown p pm s d ec1 d1 ec2 d2 hpm h ht h1 h2 h3]
              exact ⟨_, rfl, rfl, by simp [postCount],
                by intro n; simp [hasGenCall], by intro v hv; simp at hv⟩
            | resp ec3 d3 =>
              by_cases hz : ec1 = 0 ∧ ec2 = 0 ∧ ec3 = 0
              · obtain ⟨hz1, hz2, hz3⟩ := hz
                subst hz1; subst hz2; subst hz3
                rw [attemptCycle_wallet_zero p pm s d d1 d2 d3 hpm h ht h1 h2 h3]
                refine ⟨_, rfl, rfl, by simp [postCount],
                  by intro n; simp [hasGenCall], ?_⟩
                intro v hv
                simp at hv
                exact ⟨s.k, by rw [h, hv], by rw [← hv]; exact ht⟩
              · rw [attemptCycle_wallet_nonzero p pm s d ec1 d1 ec2 d2 ec3 d3 hpm h ht h1 h2 h3 hz]
                refine ⟨_, rfl, rfl, by simp [postCount],
                  by intro n; simp [hasGenCall], ?_⟩
                intro v hv
                simp at hv
                exact ⟨s.k, by rw [h, hv], by rw [← hv]; exact ht⟩
      · rw [attemptCycle_fail _ p pm s ec d h hs]
        exact ⟨[Event.hPost p pm], rfl, rfl, by simp [postCount],
          by intro n; simp [hasGenCall], by intro v hv; simp at hv⟩
  · cases h : s.env s.k with
    | thrown =>
      rw [attemptCycle_thrown e p pm s h]
      exact ⟨[Event.hPost p pm], rfl, rfl, by simp [postCount],
        by intro n; simp [hasGenCall], by intro v hv; simp at hv⟩
    | resp ec d =>
      by_cases hs : ec = 0 ∧ d.truthy
      · obtain ⟨hec, ht⟩ := hs
        subst hec
        rw [attemptCycle_plain e p pm s d h ht hw]
        refine ⟨[Event.hPost p pm], rfl, rfl, by simp [postCount],
          by intro n; simp [hasGenCall], ?_⟩
        intro v hv
        simp at hv
        exact ⟨s.k, by rw [h, hv], by rw [← hv]; exact ht⟩
      · rw [attemptCycle_fail e p pm s ec d h hs]
        exact ⟨[Event.hPost p pm], rfl, rfl, by simp [postCount],
          by intro n; simp [hasGenCall], by intro v hv; simp at hv⟩

theorem postCount_cons_gen (m : String) (t : List Event) :
    postCount (Event.genCall m :: t) = postCount t := by
  simp [postCount]

theorem hasGenCall_cons_gen (n m : String) (t : List Event) :
    hasGenCall n (Event.genCall m :: t) = ((m == n) || hasGenCall n t) := by
  simp [hasGenCall]

/-- Invariant of the retry loop: starting from `acc` with
`acc.length ≤ needed`, the loop preserves the oracle, only appends to the
trace, performs at most `fuel` POSTs, stops with either `needed` items
collected or the fuel exhausted, emits generator invocations only for its
own entity, and every collected item is the `data` of a backend response
with error code 0 and truthy data. -/
theorem poolLoop_spec (e p : String) (gen : Nat → Payload) (needed : Nat) :
    ∀ (fuel att : Nat) (acc : List JVal) (s : St), acc.length ≤ needed →
      ∃ (δ : List Event) (newPart : List JVal),
        (poolLoop e p gen needed fuel att acc s).2.env = s.env ∧
        (poolLoop e p gen needed fuel att acc s).2.trace = s.trace ++ δ ∧
        (poolLoop e p gen needed fuel att acc s).1 = acc ++ newPart ∧
        (acc ++ newPart).length ≤ needed ∧
        postCount δ ≤ fuel ∧
        ((acc ++ newPart).length = needed ∨ postCount δ = fuel) ∧
        (∀ n, hasGenCall n δ = true → n = e) ∧
        (∀ v ∈ newPart, ∃ j, s.env j = HttpOutcome.resp 0 v ∧ v.truthy = true) := by
  intro fuel
  induction fuel with
  | zero =>
    intro att acc s hacc
    refine ⟨[], [], rfl, by simp [poolLoop, pure_apply],
      by simp [poolLoop, pure_apply], by simpa using hacc,
      by simp [postCount], Or.inr (by simp [postCount]),
      by intro n hn; simp [hasGenCall] at hn, by intro v hv; simp at hv⟩
  | succ fuel ih =>
    intro att acc s hacc
    by_cases hlt : acc.length < needed
    · have heq : poolLoop e p gen needed (fuel + 1) att acc s =
        (match (attemptCycle e p (gen att) (genEvent e s).2).1 with
         | some d => poolLoop e p gen needed fuel (att + 1) (acc ++ [d])
         | none => poolLoop e p gen needed fuel (att + 1) acc)
          (attemptCycle e p (gen att) (genEvent e s).2).2 := by
        simp only [poolLoop, hlt, if_pos, bind_apply, genEvent]
      obtain ⟨δc, hcenv, hctrace, hcpost, hcgen, hcprov⟩ :=
        attemptCycle_frame e p (gen att) (genEvent e s).2
      have hgenv : ((genEvent e s).2).env = s.env := rfl
      have hgtrace : ((genEvent e s).2).trace = s.trace ++ [Event.genCall e] := rfl
      cases hres : (attemptCycle e p (gen att) (genEvent e s).2).1 with
      | some d =>
        have heq2 : poolLoop e p gen needed (fuel + 1) att acc s =
            poolLoop e p gen needed fuel (att + 1) (acc ++ [d])
              (attemptCycle e p (gen att) (genEvent e s).2).2 := by
          rw [heq, hres]
        have hlen : (acc ++ [d]).length ≤ needed := by
          simp only [List.length_append, List.length_singleton]
          omega
        obtain ⟨δr, newPart', henv', htrace', hres', hlen', hpost', hstop', hgen', hprov'⟩ :=
          ih (att + 1) (acc ++ [d]) (attemptCycle e p (gen att) (genEvent e s).2).2 hlen
        have hδ : postCount (Event.genCall e :: (δc ++ δr)) =
            postCount δc + postCount δr := by
          rw [postCount_cons_gen, postCount_append]
        refine ⟨Event.genCall e :: (δc ++ δr), d :: newPart', ?_, ?_, ?_, ?_, ?_, ?_, ?_, ?_⟩
        · rw [heq2, henv', hcenv, hgenv]
        · rw [heq2, htrace', hctrace, hgtrace]
          simp [List.append_assoc]
        · rw [heq2, hres']
          simp
        · have h1 := hlen'
          simp only [List.length_append, List.length_singleton,
            List.length_cons, List.length_nil] at h1 ⊢
          omega
        · rw [hδ]
          omega
        · rcases hstop' with hL | hR
          · left
            simp only [List.length_append, List.length_singleton,
              List.length_cons, List.length_nil] at hL ⊢
            omega
          · right
            rw [hδ, hcpost, hR]
            omega
        · intro n hn
          rw [hasGenCall_cons_gen, hasGenCall_append] at hn
          rcases Bool.or_eq_true_iff.mp hn with h1 | h2
          · exact (beq_iff_eq.mp h1).symm
          · rcases Bool.or_eq_true_iff.mp h2 with h3 | h4
            · rw [hcgen n] at h3
              exact absurd h3 (by simp)
            · exact hgen' n h4
        · intro v hv
          rcases List.mem_cons.mp hv with hv1 | hv2
          · subst hv1
            obtain ⟨j, hj1, hj2⟩ := hcprov v hres
            exact ⟨j, by rw [← hgenv]; exact hj1, hj2⟩
          · obtain ⟨j, hj1, hj2⟩ := hprov' v hv2
            rw [hcenv, hgenv] at hj1
            exact ⟨j, hj1, hj2⟩
      | none =>
        have heq2 : poolLoop e p gen needed (fuel + 1) att acc s =
            poolLoop e p gen needed fuel (att + 1) acc
              (attemptCycle e p (gen att) (genEvent e s).2).2 := by
          rw [heq, hres]
        obtain ⟨δr, newPart', henv', htrace', hres', hlen', hpost', hstop', hgen', hprov'⟩ :=
          ih (att + 1) acc (attemptCycle e p (gen att) (genEvent e s).2).2 (le_of_lt hlt)
        have hδ : postCount (Event.genCall e :: (δc ++ δr)) =
            postCount δc + postCount δr := by
          rw [postCount_cons_gen, postCount_append]
        refine ⟨Event.genCall e :: (δc ++ δr), newPart', ?_, ?_, ?_, ?_, ?_, ?_, ?_, ?_⟩
        · rw [heq2, henv', hcenv, hgenv]
        · rw [heq2, htrace', hctrace, hgtrace]
          simp [List.append_assoc]
        · rw [heq2, hres']
        · exact hlen'
        · rw [hδ]
          omega
        · rcases hstop' with hL | hR
          · exact Or.inl hL
          · right
            rw [hδ, hcpost, hR]
            omega
        · intro n hn
          rw [hasGenCall_cons_gen, hasGenCall_append] at hn
          rcases Bool.or_eq_true_iff.mp hn with h1 | h2
          · exact (beq_iff_eq.mp h1).symm
          · rcases Bool.or_eq_true_iff.mp h2 with h3 | h4
            · rw [hcgen n] at h3
              exact absurd h3 (by simp)
            · exact hgen' n h4
        · intro v hv
          obtain ⟨j, hj1, hj2⟩ := hprov' v hv
          rw [hcenv, hgenv] at hj1
          exact ⟨j, hj1, hj2⟩
    · have heq : poolLoop e p gen needed (fuel + 1) att acc s = (acc, s) := by
        simp [poolLoop, hlt]
      refine ⟨[], [], ?_, ?_, ?_, ?_, ?_, ?_, ?_, ?_⟩
      · rw [heq]
      · rw [heq]; simp
      · rw [heq]; simp
      · simpa using hacc
      · simp [postCount]
      · left
        simp only [List.append_nil]
        omega
      · intro n hn
        simp [hasGenCall] at hn
      · intro v hv
        simp at hv

/-- The coercion that `ensureEntityPool` applies to the read response:
`data || []`, then empty on non-zero `EC`, then empty on non-array. -/
def readCoerce (ec : Int) (d : JVal) : List JVal :=
  let currentData0 := if d.truthy then d else JVal.jarr []
  let currentData1 := if ec ≠ 0 then JVal.jarr [] else currentData0
  match currentData1 with
  | .jarr xs => xs
  | _ => []

/-- `readCoerce` on a successful array read is the array itself. -/
theorem readCoerce_ok (xs : List JVal) : readCoerce 0 (JVal.jarr xs) = xs := by
  simp [readCoerce, JVal.truthy]

/-- Unfolding `ensureEntityPool` when the initial GET throws. -/
theorem ensureEntityPool_thrown (e g p : String) (gen : Nat → Payload)
    (s : St) (h : s.env s.k = .thrown) :
    ensureEntityPool e g p gen s =
      ([], ⟨s.env, s.k + 1, s.cache, s.trace ++ [Event.hGet g]⟩) := by
  unfold ensureEntityPool
  simp only [bind_apply, httpGet, h]
  rfl

/-- Unfolding `ensureEntityPool` when the GET responds and the coerced
pool already meets the minimum: truncate, no loop. -/
theorem ensureEntityPool_resp_ge (e g p : String) (gen : Nat → Payload)
    (s : St) (ec : Int) (d : JVal) (h : s.env s.k = .resp ec d)
    (hc : minPoolSize ≤ (readCoerce ec d).length) :
    ensureEntityPool e g p gen s =
      ((readCoerce ec d).take minPoolSize,
        ⟨s.env, s.k + 1, s.cache, s.trace ++ [Event.hGet g]⟩) := by
  unfold ensureEntityPool
  simp only [bind_apply, httpGet, h]
  have e1 : (match (if (ec ≠ 0) then JVal.jarr [] else
      (if d.truthy then d else JVal.jarr [])) with
    | JVal.jarr xs => xs
    | _ => ([] : List JVal)) = readCoerce ec d := rfl
  rw [e1, if_pos hc]
  rfl

/-- Unfolding `ensureEntityPool` when the GET responds and the coerced
pool is below the minimum: run the retry loop and append its yield. -/
theorem ensureEntityPool_resp_lt (e g p : String) (gen : Nat → Payload)
    (s : St) (ec : Int) (d : JVal) (h : s.env s.k = .resp ec d)
    (hc : (readCoerce ec d).length < minPoolSize) :
    ensureEntityPool e g p gen s =
      ((readCoerce ec d) ++
        (poolLoop e p gen (minPoolSize - (readCoerce ec d).length)
          ((minPoolSize - (readCoerce ec d).length) * 2) 0 []
          ⟨s.env, s.k + 1, s.cache, s.trace ++ [Event.hGet g]⟩).1,
        (poolLoop e p gen (minPoolSize - (readCoerce ec d).length)
          ((minPoolSize - (readCoerce ec d).length) * 2) 0 []
          ⟨s.env, s.k + 1, s.cache, s.trace ++ [Event.hGet g]⟩).2) := by
  unfold ensureEntityPool
  simp only [bind_apply, httpGet, h]
  have e1 : (match (if (ec ≠ 0) then JVal.jarr [] else
      (if d.truthy then d else JVal.jarr [])) with
    | JVal.jarr xs => xs
    | _ => ([] : List JVal)) = readCoerce ec d := rfl
  rw [e1, if_neg (by omega)]
  rfl

/-! ### Concrete fixtures used by witnesses and counterexamples -/

/-- A constant backend oracle. -/
def envConst (o : HttpOutcome) : Nat → HttpOutcome := fun _ => o

/-- A fresh run state against a constant backend oracle. -/
def stOf (o : HttpOutcome) : St := ⟨envConst o, 0, [], []⟩

/-- A distinguishable backend record with identifier `i`. -/
def sampleRec (i : Nat) : JVal := JVal.jobj ⟨some (toString i), none, none⟩

/-- `n` distinguishable backend records, in backend order. -/
def sampleList (n : Nat) : List JVal := (List.range n).map sampleRec

/-- A successful read of at least `minPoolSize` records makes
`ensureEntityPool` return their 10-prefix with a single GET as the whole
new trace. -/
theorem ensureEntityPool_take_full (e g p : String) (gen : Nat → Payload)
    (s : St) (rs : List JVal)
    (h : s.env s.k = HttpOutcome.resp 0 (JVal.jarr rs))
    (hlen : minPoolSize ≤ rs.length) :
    ensureEntityPool e g p gen s =
      (rs.take minPoolSize,
        ⟨s.env, s.k + 1, s.cache, s.trace ++ [Event.hGet g]⟩) := by
  rw [ensureEntityPool_resp_ge e g p gen s 0 (JVal.jarr rs) h
    (by rwa [readCoerce_ok])]
  rw [readCoerce_ok]

/-! ### C1 -/

/-- C1: for every entity pool, if the read response has error code 0 and
its data is an array of at least `minPoolSize` (10) records, then
`ensureEntityPool` issues zero POST calls — the complete new trace is the
single GET — and returns exactly the first 10 records of the read
response, in backend order. -/
theorem claim_c1_full_read_truncates_no_writes (e g p : String)
    (gen : Nat → Payload) (s : St) (rs : List JVal)
    (h : s.env s.k = HttpOutcome.resp 0 (JVal.jarr rs))
    (hlen : minPoolSize ≤ rs.length) :
    ensureEntityPool e g p gen s =
      (rs.take minPoolSize,
        ⟨s.env, s.k + 1, s.cache, s.trace ++ [Event.hGet g]⟩) ∧
    postCount [Event.hGet g] = 0 := by
  exact ⟨ensureEntityPool_take_full e g p gen s rs h hlen, by simp [postCount]⟩

/-- Witness for C1: a backend reporting 12 customers with error code 0
yields the first 10 of them and no POST. -/
theorem claim_c1_witness :
    (ensureEntityPool "Customers" "/customers"
      "/auth/register-customer?is-generated=true" plainGen
      (stOf (HttpOutcome.resp 0 (JVal.jarr (sampleList 12))))).1 =
      (sampleList 12).take minPoolSize ∧
    postCount [Event.hGet "/customers"] = 0 := by
  have h := claim_c1_full_read_truncates_no_writes "Customers" "/customers"
    "/auth/register-customer?is-generated=true" plainGen
    (stOf (HttpOutcome.resp 0 (JVal.jarr (sampleList 12))))
    (sampleList 12) rfl (by simp [minPoolSize, sampleList])
  exact ⟨by rw [h.1], h.2⟩

/-! ### C3 -/

/-- The literal reading of C3: a bulk pool whose read already meets the
minimum is returned to the caller unmodified, so it may exceed 10 items. -/
def ClaimC3Literal : Prop :=
  ∀ (e g p : String) (gen : Nat → Payload) (s : St) (rs : List JVal),
    s.env s.k = HttpOutcome.resp 0 (JVal.jarr rs) →
    minPoolSize ≤ rs.length →
    (ensureEntityPool e g p gen s).1 = rs

/-- Counterexample for C3: with 11 records reported, `ensureEntityPool`
returns `slice(0, 10)` of them, not the existing data unmodified — the
returned pool never exceeds the minimum. -/
theorem claim_c3_counterexample : ¬ ClaimC3Literal := by
  intro hcl
  have h := hcl "AddressBooks" "/address_books" "/address_books" plainGen
    (stOf (HttpOutcome.resp 0 (JVal.jarr (sampleList 11))))
    (sampleList 11) rfl (by simp [minPoolSize, sampleList])
  have hlen := congrArg List.length h
  have h10 : (ensureEntityPool "AddressBooks" "/address_books"
      "/address_books" plainGen
      (stOf (HttpOutcome.resp 0 (JVal.jarr (sampleList 11))))).1 =
      (sampleList 11).take minPoolSize := by
    rw [ensureEntityPool_take_full "AddressBooks" "/address_books"
      "/address_books" plainGen
      (stOf (HttpOutcome.resp 0 (JVal.jarr (sampleList 11))))
      (sampleList 11) rfl (by simp [minPoolSize, sampleList])]
  rw [h10] at hlen
  simp [minPoolSize, sampleList] at hlen

/-- C3 amended: when the read already meets the minimum the caller gets
the first 10 records (a truncated prefix, not the data unmodified), and
in every case — including the generation branch — the returned pool never
exceeds the minimum of 10 items. -/
theorem claim_c3_amended_truncation (e g p : String) (gen : Nat → Payload)
    (s : St) :
    (∀ rs, s.env s.k = HttpOutcome.resp 0 (JVal.jarr rs) →
      minPoolSize ≤ rs.length →
      (ensureEntityPool e g p gen s).1 = rs.take minPoolSize) ∧
    (ensureEntityPool e g p gen s).1.length ≤ minPoolSize := by
  constructor
  · intro rs h hlen
    rw [ensureEntityPool_take_full e g p gen s rs h hlen]
  · cases h : s.env s.k with
    | thrown =>
      rw [ensureEntityPool_thrown e g p gen s h]
      simp [minPoolSize]
    | resp ec d =>
      by_cases hc : minPoolSize ≤ (readCoerce ec d).length
      · rw [ensureEntityPool_resp_ge e g p gen s ec d h hc]
        simp
      · rw [ensureEntityPool_resp_lt e g p gen s ec d h (by omega)]
        obtain ⟨δ, newPart, _, _, hres, hlen, _, _, _, _⟩ :=
          poolLoop_spec e p gen (minPoolSize - (readCoerce ec d).length)
            ((minPoolSize - (readCoerce ec d).length) * 2) 0 []
            ⟨s.env, s.k + 1, s.cache, s.trace ++ [Event.hGet g]⟩ (by simp)
        simp only [hres]
        simp only [List.nil_append] at hlen ⊢
        simp only [List.length_append]
        omega

/-- Witness for the amended C3: at 11 reported records the returned pool
has exactly 10 items. -/
theorem claim_c3_amended_witness :
    (ensureEntityPool "AddressBooks" "/address_books" "/address_books"
      plainGen (stOf (HttpOutcome.resp 0 (JVal.jarr (sampleList 11))))).1 =
      (sampleList 11).take minPoolSize ∧
    (ensureEntityPool "AddressBooks" "/address_books" "/address_books"
      plainGen (stOf (HttpOutcome.resp 0
        (JVal.jarr (sampleList 11))))).1.length ≤ minPoolSize := by
  have h := claim_c3_amended_truncation "AddressBooks" "/address_books"
    "/address_books" plainGen
    (stOf (HttpOutcome.resp 0 (JVal.jarr (sampleList 11))))
  exact ⟨h.1 (sampleList 11) rfl (by simp [minPoolSize, sampleList]), h.2⟩

/-! ### C4 -/

/-- Every branch of the singleton-admin body yields at most one record:
truncation on presence, `slice(0, 1)` after a creation attempt, and the
empty list on a thrown call or on the spread of a non-array response. -/
theorem ensureSingletonAdmin_le_one (rolePath postPath : String) (s : St) :
    (ensureSingletonAdmin rolePath postPath s).1.length ≤ 1 := by
  unfold ensureSingletonAdmin
  simp only [bind_apply, httpGet, httpPost]
  cases h : s.env s.k with
  | thrown => simp [pure_apply]
  | resp ec d =>
    cases d with
    | jnull =>
      cases h2 : s.env (s.k + 1) with
      | thrown =>
        simp [JVal.truthy, bind_apply, httpPost, pure_apply, h2]
      | resp ec2 pd =>
        cases pd <;>
          simp [JVal.truthy, bind_apply, httpPost, pure_apply, h2]
    | jarr xs =>
      by_cases hx : 1 ≤ xs.length
      · simp [JVal.truthy, hx, pure_apply]
      · cases h2 : s.env (s.k + 1) with
        | thrown =>
          simp [JVal.truthy, hx, bind_apply, httpPost, pure_apply, h2]
        | resp ec2 pd =>
          cases pd <;>
            simp [JVal.truthy, hx, bind_apply, httpPost, pure_apply, h2]
    | jobj o =>
      simp [JVal.truthy, bind_apply, httpPost, pure_apply]

/-- C4: for every backend behaviour — any number of reported admins, any
error code, a successful or failed creation, or a thrown call — each of
the three singleton ensure operations returns a list of length at most 1. -/
theorem claim_c4_singletons_at_most_one (s : St) :
    (ensureSuperAdmins s).1.length ≤ 1 ∧
    (ensureFinanceAdmins s).1.length ≤ 1 ∧
    (ensureCompanionAdmins s).1.length ≤ 1 :=
  ⟨ensureSingletonAdmin_le_one _ _ s, ensureSingletonAdmin_le_one _ _ s,
    ensureSingletonAdmin_le_one _ _ s⟩

/-! ### C2 -/

/-- C2: when the read reports fewer than `minPoolSize` records
(`currentCount < 10`), `ensureEntityPool` performs at most `needed * 2`
write attempts for `needed = 10 - currentCount`, the loop stops with
either `needed` counted successes or the attempt budget exhausted, and
the result is the existing records followed by the created records in
append order — at most `needed` new records, each of which is the `data`
of a write response with error code 0 and truthy data (a submission is
counted as successful only under that condition). -/
theorem claim_c2_retry_bounded_generation (e g p : String)
    (gen : Nat → Payload) (s : St) (rs : List JVal)
    (h : s.env s.k = HttpOutcome.resp 0 (JVal.jarr rs))
    (hlen : rs.length < minPoolSize) :
    ∃ (δ : List Event) (newItems : List JVal),
      (ensureEntityPool e g p gen s).1 = rs ++ newItems ∧
      (ensureEntityPool e g p gen s).2.trace =
        s.trace ++ [Event.hGet g] ++ δ ∧
      postCount δ ≤ (minPoolSize - rs.length) * 2 ∧
      newItems.length ≤ minPoolSize - rs.length ∧
      (newItems.length = minPoolSize - rs.length ∨
        postCount δ = (minPoolSize - rs.length) * 2) ∧
      (∀ v ∈ newItems, ∃ j, s.env j = HttpOutcome.resp 0 v ∧
        v.truthy = true) := by
  have hread : (readCoerce 0 (JVal.jarr rs)) = rs := readCoerce_ok rs
  have hlt : (readCoerce 0 (JVal.jarr rs)).length < minPoolSize := by
    rwa [hread]
  rw [ensureEntityPool_resp_lt e g p gen s 0 (JVal.jarr rs) h hlt]
  obtain ⟨δ, newPart, henv, htrace, hres, hl, hpost, hstop, hgen, hprov⟩ :=
    poolLoop_spec e p gen (minPoolSize - (readCoerce 0 (JVal.jarr rs)).length)
      ((minPoolSize - (readCoerce 0 (JVal.jarr rs)).length) * 2) 0 []
      ⟨s.env, s.k + 1, s.cache, s.trace ++ [Event.hGet g]⟩ (by simp)
  rw [hread] at *
  refine ⟨δ, newPart, ?_, ?_, ?_, ?_, ?_, ?_⟩
  · simp [hres]
  · simp [htrace, List.append_assoc]
  · exact hpost
  · simpa using hl
  · rcases hstop with hL | hR
    · left
      simpa using hL
    · right
      exact hR
  · intro v hv
    exact hprov v hv

/-- Witness for C2: with 9 existing records and a backend that accepts
every creation, one creation is performed and appended. -/
theorem claim_c2_witness :
    ∃ (δ : List Event) (newItems : List JVal),
      (ensureEntityPool "Customers" "/customers"
        "/auth/register-customer?is-generated=true" plainGen
        (stOf (HttpOutcome.resp 0 (JVal.jarr (sampleList 9))))).1 =
        sampleList 9 ++ newItems ∧
      (ensureEntityPool "Customers" "/customers"
        "/auth/register-customer?is-generated=true" plainGen
        (stOf (HttpOutcome.resp 0 (JVal.jarr (sampleList 9))))).2.trace =
        (stOf (HttpOutcome.resp 0 (JVal.jarr (sampleList 9)))).trace ++
          [Event.hGet "/customers"] ++ δ ∧
      postCount δ ≤ (minPoolSize - (sampleList 9).length) * 2 ∧
      newItems.length ≤ minPoolSize - (sampleList 9).length ∧
      (newItems.length = minPoolSize - (sampleList 9).length ∨
        postCount δ = (minPoolSize - (sampleList 9).length) * 2) ∧
      (∀ v ∈ newItems, ∃ j,
        (stOf (HttpOutcome.resp 0 (JVal.jarr (sampleList 9)))).env j =
          HttpOutcome.resp 0 v ∧ v.truthy = true) :=
  claim_c2_retry_bounded_generation "Customers" "/customers"
    "/auth/register-customer?is-generated=true" plainGen
    (stOf (HttpOutcome.resp 0 (JVal.jarr (sampleList 9))))
    (sampleList 9) rfl (by simp [minPoolSize, sampleList])

/-! ### C5 -/

/-- `readCoerce` is empty whenever the envelope is not a zero-error-code
array response. -/
theorem readCoerce_empty (ec : Int) (d : JVal)
    (hbad : ¬ec = 0 ∨ d.truthy = false ∨ ∀ xs, d ≠ JVal.jarr xs) :
    readCoerce ec d = [] := by
  by_cases hec : ec = 0
  · subst hec
    rcases hbad with h1 | h2 | h3
    · exact absurd rfl h1
    · cases d <;> simp_all [readCoerce, JVal.truthy]
    · cases d with
      | jnull => simp [readCoerce, JVal.truthy]
      | jarr xs => exact absurd rfl (h3 xs)
      | jobj o => simp [readCoerce, JVal.truthy]
  · simp [readCoerce, hec]

/-- C5: `ensureEntityPool` never propagates an exception — in this
embedding every branch of the try/catch structure of the source is a
value, so the run is a defined pair for every backend behaviour.  When
the initial read throws, the result is the empty list; when the response
has a non-zero error code, falsy data or non-array data, the current data
is treated as empty and the result consists solely of (at most 10)
successfully created records. -/
theorem claim_c5_no_exception_escapes (e g p : String)
    (gen : Nat → Payload) (s : St) :
    (∃ result s2, ensureEntityPool e g p gen s = (result, s2)) ∧
    (s.env s.k = HttpOutcome.thrown →
      ensureEntityPool e g p gen s =
        ([], ⟨s.env, s.k + 1, s.cache, s.trace ++ [Event.hGet g]⟩)) ∧
    (∀ ec d, s.env s.k = HttpOutcome.resp ec d →
      (¬ec = 0 ∨ d.truthy = false ∨ ∀ xs, d ≠ JVal.jarr xs) →
      (ensureEntityPool e g p gen s).1.length ≤ minPoolSize ∧
      ∀ v ∈ (ensureEntityPool e g p gen s).1,
        ∃ j, s.env j = HttpOutcome.resp 0 v ∧ v.truthy = true) := by
  refine ⟨⟨_, _, rfl⟩, ?_, ?_⟩
  · intro h
    exact ensureEntityPool_thrown e g p gen s h
  · intro ec d h hbad
    have hcoerce := readCoerce_empty ec d hbad
    have hlt : (readCoerce ec d).length < minPoolSize := by
      rw [hcoerce]
      simp [minPoolSize]
    rw [ensureEntityPool_resp_lt e g p gen s ec d h hlt]
    obtain ⟨δ, newPart, henv, htrace, hres, hl, hpost, hstop, hgen, hprov⟩ :=
      poolLoop_spec e p gen (minPoolSize - (readCoerce ec d).length)
        ((minPoolSize - (readCoerce ec d).length) * 2) 0 []
        ⟨s.env, s.k + 1, s.cache, s.trace ++ [Event.hGet g]⟩ (by simp)
    rw [hcoerce] at *
    constructor
    · rw [hres]
      simpa using hl
    · intro v hv
      rw [hres] at hv
      simp at hv
      exact hprov v (by simpa using hv)

/-- Witness for C5: a backend whose every call throws makes
`ensureEntityPool` return the empty list, and a non-zero error code read
yields only created records. -/
theorem claim_c5_witness :
    (∃ result s2, ensureEntityPool "Drivers" "/drivers"
      "/auth/register-driver?is-generated=true" plainGen
      (stOf HttpOutcome.thrown) = (result, s2)) ∧
    (ensureEntityPool "Drivers" "/drivers"
      "/auth/register-driver?is-generated=true" plainGen
      (stOf HttpOutcome.thrown) =
      ([], ⟨(stOf HttpOutcome.thrown).env, 1, [],
        [Event.hGet "/drivers"]⟩)) := by
  have h := claim_c5_no_exception_escapes "Drivers" "/drivers"
    "/auth/register-driver?is-generated=true" plainGen
    (stOf HttpOutcome.thrown)
  exact ⟨h.1, h.2.1 rfl⟩

/-! ### C6 -/

/-- C6: within one generation cycle (the loop body shared by
`ensureEntityPool` and `generateAdditionalEntity`), cache writes happen
only when the entity is `Orders`, the submitted payload pays by FWallet,
and the creation succeeded (the cycle counted it: `newItems.push` and
`successfulCreations++` were reached, i.e. the cycle result is `some`).
In that case the three wallet reads all responded, exactly 3 wallet GETs
were issued, and exactly the three wallet cache keys are written with a
TTL of 7200 seconds (7200000 ms) if and only if all three wallet reads
returned error code 0.  In every other case the cycle writes no cache
key. -/
theorem claim_c6_wallet_cache_writes (e p : String) (pm : Payload) (s : St) :
    ∃ δ : List Event,
      (attemptCycle e p pm s).2.trace = s.trace ++ δ ∧
      (e = "Orders" → pm.payment_method = some "FWallet" →
        (attemptCycle e p pm s).1.isSome = true →
        getCount δ = 3 ∧
        ∃ (ec1 ec2 ec3 : Int) (d1 d2 d3 : JVal),
          s.env (s.k + 1) = HttpOutcome.resp ec1 d1 ∧
          s.env (s.k + 2) = HttpOutcome.resp ec2 d2 ∧
          s.env (s.k + 3) = HttpOutcome.resp ec3 d3 ∧
          setEvents δ =
            (if ec1 = 0 ∧ ec2 = 0 ∧ ec3 = 0 then
              [Event.cSet ("fwallet:" ++ jsStr pm.customer_id) (7200 * 1000),
               Event.cSet ("fwallet:" ++ jsStr pm.restaurant_id) (7200 * 1000),
               Event.cSet "fwallet:FLASHFOOD_FINANCE" (7200 * 1000)]
            else [])) ∧
      (¬(e = "Orders" ∧ pm.payment_method = some "FWallet" ∧
          (attemptCycle e p pm s).1.isSome = true) →
        setEvents δ = []) := by
  by_cases hw : e = "Orders" ∧ pm.payment_method = some "FWallet"
  · obtain ⟨he, hpm⟩ := hw
    subst he
    cases h : s.env s.k with
    | thrown =>
      rw [attemptCycle_thrown _ p pm s h]
      exact ⟨[Event.hPost p pm], rfl,
        by intro _ _ hs; simp at hs,
        by intro _; simp [setEvents]⟩
    | resp ec d =>
      by_cases hs : ec = 0 ∧ d.truthy
      · obtain ⟨hec, ht⟩ := hs
        subst hec
        cases h1 : s.env (s.k + 1) with
        | thrown =>
          rw [attemptCycle_w1_thrown p pm s d hpm h ht h1]
          exact ⟨_, rfl, by intro _ _ hsm; simp at hsm,
            by intro _; simp [setEvents]⟩
        | resp ec1 d1 =>
          cases h2 : s.env (s.k + 2) with
          | thrown =>
            rw [attemptCycle_w2_thrown p pm s d ec1 d1 hpm h ht h1 h2]
            exact ⟨_, rfl, by intro _ _ hsm; simp at hsm,
              by intro _; simp [setEvents]⟩
          | resp ec2 d2 =>
            cases h3 : s.env (s.k + 3) with
            | thrown =>
              rw [attemptCycle_w3_thrown p pm s d ec1 d1 ec2 d2 hpm h ht h1 h2 h3]
              exact ⟨_, rfl, by intro _ _ hsm; simp at hsm,
                by intro _; simp [setEvents]⟩
            | resp ec3 d3 =>
              by_cases hz : ec1 = 0 ∧ ec2 = 0 ∧ ec3 = 0
              · obtain ⟨hz1, hz2, hz3⟩ := hz
                subst hz1; subst hz2; subst hz3
                rw [attemptCycle_wallet_zero p pm s d d1 d2 d3 hpm h ht h1 h2 h3]
                refine ⟨_, rfl, ?_, ?_⟩
                · intro _ _ _
                  refine ⟨by simp [getCount],
                    0, 0, 0, d1, d2, d3, rfl, rfl, rfl, ?_⟩
                  simp [setEvents]
                · intro hcon
                  exact absurd ⟨rfl, hpm, by simp⟩ hcon
              · rw [attemptCycle_wallet_nonzero p pm s d ec1 d1 ec2 d2 ec3 d3 hpm h ht h1 h2 h3 hz]
                refine ⟨_, rfl, ?_, ?_⟩
                · intro _ _ _
                  refine ⟨by simp [getCount],
                    ec1, ec2, ec3, d1, d2, d3, rfl, rfl, rfl, ?_⟩
                  rw [if_neg hz]
                  simp [setEvents]
                · intro hcon
                  exact absurd ⟨rfl, hpm, by simp⟩ hcon
      · rw [attemptCycle_fail _ p pm s ec d h hs]
        exact ⟨[Event.hPost p pm], rfl,
          by intro _ _ hsm; simp at hsm,
          by intro _; simp [setEvents]⟩
  · cases h : s.env s.k with
    | thrown =>
      rw [attemptCycle_thrown e p pm s h]
      refine ⟨[Event.hPost p pm], rfl, ?_, by intro _; simp [setEvents]⟩
      intro he hpm _
      exact absurd ⟨he, hpm⟩ hw
    | resp ec d =>
      by_cases hs : ec = 0 ∧ d.truthy
      · obtain ⟨hec, ht⟩ := hs
        subst hec
        rw [attemptCycle_plain e p pm s d h ht hw]
        refine ⟨[Event.hPost p pm], rfl, ?_, by intro _; simp [setEvents]⟩
        intro he hpm _
        exact absurd ⟨he, hpm⟩ hw
      · rw [attemptCycle_fail e p pm s ec d h hs]
        refine ⟨[Event.hPost p pm], rfl, ?_, by intro _; simp [setEvents]⟩
        intro he hpm _
        exact absurd ⟨he, hpm⟩ hw

/-- A sample wallet record returned by the wallet endpoints. -/
def walletRec : JVal := JVal.jobj ⟨some "W", none, none⟩

/-- Witness for C6: a successful FWallet order cycle against a backend
that answers every call with error code 0 issues exactly 3 wallet reads
and writes exactly the three wallet cache keys with a 7200000 ms TTL. -/
theorem claim_c6_witness :
    ∃ δ : List Event,
      (attemptCycle "Orders" "/orders?is-generated=true"
        ⟨some "FWallet", some "C1", some "R1"⟩
        (stOf (HttpOutcome.resp 0 walletRec))).2.trace =
        (stOf (HttpOutcome.resp 0 walletRec)).trace ++ δ ∧
      getCount δ = 3 ∧
      setEvents δ =
        [Event.cSet "fwallet:C1" (7200 * 1000),
         Event.cSet "fwallet:R1" (7200 * 1000),
         Event.cSet "fwallet:FLASHFOOD_FINANCE" (7200 * 1000)] := by
  obtain ⟨δ, htr, hcase, _⟩ := claim_c6_wallet_cache_writes "Orders"
    "/orders?is-generated=true" ⟨some "FWallet", some "C1", some "R1"⟩
    (stOf (HttpOutcome.resp 0 walletRec))
  obtain ⟨hget, ec1, ec2, ec3, d1, d2, d3, he1, he2, he3, hsets⟩ :=
    hcase rfl rfl rfl
  refine ⟨δ, htr, hget, ?_⟩
  have hc1 : ec1 = 0 := by
    have : HttpOutcome.resp 0 walletRec = HttpOutcome.resp ec1 d1 := he1
    cases this
    rfl
  have hc2 : ec2 = 0 := by
    have : HttpOutcome.resp 0 walletRec = HttpOutcome.resp ec2 d2 := he2
    cases this
    rfl
  have hc3 : ec3 = 0 := by
    have : HttpOutcome.resp 0 walletRec = HttpOutcome.resp ec3 d3 := he3
    cases this
    rfl
  rw [hsets, if_pos ⟨hc1, hc2, hc3⟩]
  rfl

/-! ### C7 -/

/-- C7: if a first `ensureDataPools` call runs on a cache miss, its final
state holds the full aggregate under the cache key; and any second call
that still sees that cache entry returns an aggregate equal to the first
result while performing zero network calls (the oracle cursor `k` is
unchanged, so in particular zero POSTs) and leaving the cache untouched —
its entire new trace is the single cache GET. -/
theorem claim_c7_cache_hit_skips_generation (dw : Draws) (s : St)
    (hmiss : s.cache.lookup cacheKey = none) :
    (ensureDataPools dw s).2.cache.lookup cacheKey =
      some (CacheVal.pools (ensureDataPools dw s).1) ∧
    (∀ s2 : St, s2.cache.lookup cacheKey =
        some (CacheVal.pools (ensureDataPools dw s).1) →
      ensureDataPools dw s2 =
        ((ensureDataPools dw s).1,
          ⟨s2.env, s2.k, s2.cache, s2.trace ++ [Event.cGet cacheKey]⟩) ∧
      postCount [Event.cGet cacheKey] = 0) := by
  constructor
  · conv_lhs => rw [ensureDataPools]
    conv_rhs => rw [ensureDataPools]
    simp only [bind_apply, redisGet, hmiss, pure_apply, redisSet]
    simp [List.lookup]
  · intro s2 hhit
    constructor
    · conv_lhs => rw [ensureDataPools]
      simp only [bind_apply, redisGet, hhit, pure_apply]
      rfl
    · simp [postCount]

/-- A fixed all-zero draw oracle for concrete runs. -/
def dwZero : Draws := ⟨fun _ _ => 0, fun _ _ => 0, fun _ _ => 0, 0⟩

/-- Witness for C7: running `ensureDataPools` on an empty cache against a
backend whose calls all throw, then running it again on the resulting
state, returns the same aggregate with a single cache GET as the whole
new trace. -/
theorem claim_c7_witness :
    (ensureDataPools dwZero (stOf HttpOutcome.thrown)).2.cache.lookup
        cacheKey =
      some (CacheVal.pools
        (ensureDataPools dwZero (stOf HttpOutcome.thrown)).1) ∧
    ensureDataPools dwZero
        ((ensureDataPools dwZero (stOf HttpOutcome.thrown)).2) =
      ((ensureDataPools dwZero (stOf HttpOutcome.thrown)).1,
        ⟨(ensureDataPools dwZero (stOf HttpOutcome.thrown)).2.env,
         (ensureDataPools dwZero (stOf HttpOutcome.thrown)).2.k,
         (ensureDataPools dwZero (stOf HttpOutcome.thrown)).2.cache,
         (ensureDataPools dwZero (stOf HttpOutcome.thrown)).2.trace ++
           [Event.cGet cacheKey]⟩) := by
  have h := claim_c7_cache_hit_skips_generation dwZero
    (stOf HttpOutcome.thrown) rfl
  exact ⟨h.1, (h.2 _ h.1).1⟩

/-- The new trace of one `ensureEntityPool` run invokes generators only
for its own entity. -/
theorem ensureEntityPool_delta (e g p : String) (gen : Nat → Payload)
    (s : St) :
    ∃ δ, (ensureEntityPool e g p gen s).2.trace = s.trace ++ δ ∧
      (∀ n, hasGenCall n δ = true → n = e) := by
  cases h : s.env s.k with
  | thrown =>
    rw [ensureEntityPool_thrown e g p gen s h]
    exact ⟨[Event.hGet g], rfl, by intro n hn; simp [hasGenCall] at hn⟩
  | resp ec d =>
    by_cases hc : minPoolSize ≤ (readCoerce ec d).length
    · rw [ensureEntityPool_resp_ge e g p gen s ec d h hc]
      exact ⟨[Event.hGet g], rfl, by intro n hn; simp [hasGenCall] at hn⟩
    · rw [ensureEntityPool_resp_lt e g p gen s ec d h (by omega)]
      obtain ⟨δ, newPart, _, htrace, _, _, _, _, hgen, _⟩ :=
        poolLoop_spec e p gen (minPoolSize - (readCoerce ec d).length)
          ((minPoolSize - (readCoerce ec d).length) * 2) 0 []
          ⟨s.env, s.k + 1, s.cache, s.trace ++ [Event.hGet g]⟩ (by simp)
      refine ⟨Event.hGet g :: δ, ?_, ?_⟩
      · rw [htrace]
        simp
      · intro n hn
        rw [show Event.hGet g :: δ = [Event.hGet g] ++ δ from rfl,
          hasGenCall_append] at hn
        rcases Bool.or_eq_true_iff.mp hn with h1 | h2
        · simp [hasGenCall] at h1
        · exact hgen n h2

/-- Specialization: no restaurant generator call occurs inside an
address-book pool resolution. -/
theorem ensureAddressBooks_no_restaurant_gen (s : St) :
    ∃ δ, (ensureAddressBooks s).2.trace = s.trace ++ δ ∧
      hasGenCall "Restaurants" δ = false := by
  obtain ⟨δ, htrace, hgen⟩ := ensureEntityPool_delta "AddressBooks"
    "/address_books" "/address_books" plainGen s
  refine ⟨δ, htrace, ?_⟩
  cases hb : hasGenCall "Restaurants" δ with
  | false => rfl
  | true => exact absurd (hgen _ hb) (by simp)

/-- Specialization: no restaurant generator call occurs inside a
food-category pool resolution. -/
theorem ensureFoodCategories_no_restaurant_gen (s : St) :
    ∃ δ, (ensureFoodCategories s).2.trace = s.trace ++ δ ∧
      hasGenCall "Restaurants" δ = false := by
  obtain ⟨δ, htrace, hgen⟩ := ensureEntityPool_delta "FoodCategories"
    "/food-categories" "/food-categories" plainGen s
  refine ⟨δ, htrace, ?_⟩
  cases hb : hasGenCall "Restaurants" δ with
  | false => rfl
  | true => exact absurd (hgen _ hb) (by simp)

/-! ### C8 -/

/-- C8: within one orchestration pass the sixteen pools are resolved
strictly sequentially in the fixed dependency order — on a cache miss,
`ensureDataPools` is literally the left-to-right threading of the state
through the sixteen `ensure*` calls followed by one cache write — and
`ensureRestaurants` first completes the address-book resolution, then the
food-category resolution, before any restaurant generation: every
restaurant generator invocation lies in the third trace segment, while
the first two segments (which exist for every backend behaviour,
including ones that resolve both pools empty) contain none. -/
theorem claim_c8_dependency_order (dw : Draws) (s : St) :
    (s.cache.lookup cacheKey = none →
      ensureDataPools dw s =
        (let s0 := (redisGet cacheKey s).2
         let r1 := ensureAddressBooks s0
         let r2 := ensureFoodCategories r1.2
         let r3 := ensureSuperAdmins r2.2
         let r4 := ensureFinanceAdmins r3.2
         let r5 := ensureCompanionAdmins r4.2
         let r6 := ensureFinanceRules r5.2
         let r7 := ensureRestaurants r6.2
         let r8 := ensureMenuItems r7.2
         let r9 := ensureMenuItemVariants r8.2
         let r10 := ensurePromotions r9.2
         let r11 := ensureDrivers r10.2
         let r12 := ensureCustomers r11.2
         let r13 := ensureCustomerCares r12.2
         let r14 := ensureOrders dw r13.2
         let r15 := ensureCustomerCareInquiries r14.2
         let r16 := ensureRatingReviews dw r15.2
         let pools : Pools := ⟨r1.1, r2.1, r3.1, r4.1, r5.1, r6.1, r7.1,
           r8.1, r9.1, r10.1, r11.1, r12.1, r13.1, r14.1, r15.1, r16.1⟩
         (pools,
           (redisSet cacheKey (CacheVal.pools pools) (cacheTtl * 1000)
             r16.2).2))) ∧
    (∃ δab δfc δr,
      (ensureAddressBooks s).2.trace = s.trace ++ δab ∧
      (ensureFoodCategories (ensureAddressBooks s).2).2.trace =
        s.trace ++ δab ++ δfc ∧
      (ensureRestaurants s).2.trace = s.trace ++ δab ++ δfc ++ δr ∧
      hasGenCall "Restaurants" δab = false ∧
      hasGenCall "Restaurants" δfc = false) := by
  constructor
  · intro hmiss
    conv_lhs => rw [ensureDataPools]
    simp only [bind_apply, redisGet, hmiss, pure_apply]
  · obtain ⟨δab, hab, habgen⟩ := ensureAddressBooks_no_restaurant_gen s
    obtain ⟨δfc, hfc, hfcgen⟩ :=
      ensureFoodCategories_no_restaurant_gen (ensureAddressBooks s).2
    obtain ⟨δr, hr, _⟩ := ensureEntityPool_delta "Restaurants"
      "/restaurants" "/auth/register-restaurant?is-generated=true" plainGen
      (ensureFoodCategories (ensureAddressBooks s).2).2
    refine ⟨δab, δfc, δr, hab, ?_, ?_, habgen, hfcgen⟩
    · rw [hfc, hab]
    · have hrw : (ensureRestaurants s).2.trace =
        (ensureEntityPool "Restaurants" "/restaurants"
          "/auth/register-restaurant?is-generated=true" plainGen
          (ensureFoodCategories (ensureAddressBooks s).2).2).2.trace := rfl
      rw [hrw, hr, hfc, hab]

/-- Witness for C8: the sequential decomposition instantiated on an empty
cache and an all-throwing backend. -/
theorem claim_c8_witness :
    (ensureDataPools dwZero (stOf HttpOutcome.thrown) =
      (let s0 := (redisGet cacheKey (stOf HttpOutcome.thrown)).2
       let r1 := ensureAddressBooks s0
       let r2 := ensureFoodCategories r1.2
       let r3 := ensureSuperAdmins r2.2
       let r4 := ensureFinanceAdmins r3.2
       let r5 := ensureCompanionAdmins r4.2
       let r6 := ensureFinanceRules r5.2
       let r7 := ensureRestaurants r6.2
       let r8 := ensureMenuItems r7.2
       let r9 := ensureMenuItemVariants r8.2
       let r10 := ensurePromotions r9.2
       let r11 := ensureDrivers r10.2
       let r12 := ensureCustomers r11.2
       let r13 := ensureCustomerCares r12.2
       let r14 := ensureOrders dwZero r13.2
       let r15 := ensureCustomerCareInquiries r14.2
       let r16 := ensureRatingReviews dwZero r15.2
       let pools : Pools := ⟨r1.1, r2.1, r3.1, r4.1, r5.1, r6.1, r7.1,
         r8.1, r9.1, r10.1, r11.1, r12.1, r13.1, r14.1, r15.1, r16.1⟩
       (pools,
         (redisSet cacheKey (CacheVal.pools pools) (cacheTtl * 1000)
           r16.2).2))) ∧
    (∃ δab δfc δr,
      (ensureAddressBooks (stOf HttpOutcome.thrown)).2.trace =
        (stOf HttpOutcome.thrown).trace ++ δab ∧
      (ensureFoodCategories
        (ensureAddressBooks (stOf HttpOutcome.thrown)).2).2.trace =
        (stOf HttpOutcome.thrown).trace ++ δab ++ δfc ∧
      (ensureRestaurants (stOf HttpOutcome.thrown)).2.trace =
        (stOf HttpOutcome.thrown).trace ++ δab ++ δfc ++ δr ∧
      hasGenCall "Restaurants" δab = false ∧
      hasGenCall "Restaurants" δfc = false) := by
  have h := claim_c8_dependency_order dwZero (stOf HttpOutcome.thrown)
  exact ⟨h.1 rfl, h.2⟩

/-! ### C9 -/

/-- A well-drawn foreign key: null when the pool is empty, and otherwise
the `id` read off some member of the pool (which is itself null when that
member carries no id — `member?.id || null`). -/
def FkOk (pool : List JVal) (fk : Option String) : Prop :=
  (pool = [] → fk = none) ∧
  (pool ≠ [] → ∃ r ∈ pool, fk = r.objId)

/-- A safe, possibly absent foreign key (used for the payload keys whose
presence depends on a random branch): null when the pool is empty, and
any present identifier is the id of some pool member. -/
def FkSafe (pool : List JVal) (fk : Option String) : Prop :=
  (pool = [] → fk = none) ∧
  (∀ v, fk = some v → ∃ r ∈ pool, r.objId = some v)

/-- A well-drawn foreign-key list: empty when the pool is empty, and
every element is the id of some pool member. -/
def FkListOk (pool : List JVal) (fks : List String) : Prop :=
  (pool = [] → fks = []) ∧
  (∀ v ∈ fks, ∃ r ∈ pool, r.objId = some v)

theorem jpick_nil (q : ℚ) : jpick [] q = none := rfl

/-- `jpick` on a non-empty pool with a draw in `[0,1)` returns a member. -/
theorem jpick_mem (pool : List JVal) (q : ℚ) (h0 : 0 ≤ q) (h1 : q < 1)
    (hne : pool ≠ []) : ∃ r ∈ pool, jpick pool q = some r := by
  have hL : 0 < pool.length := List.length_pos.mpr hne
  have hLQ : (0 : ℚ) < (pool.length : ℚ) := by exact_mod_cast hL
  have hup : q * (pool.length : ℚ) < (pool.length : ℚ) := by
    calc q * (pool.length : ℚ) < 1 * (pool.length : ℚ) := by
          exact mul_lt_mul_of_pos_right h1 hLQ
      _ = (pool.length : ℚ) := one_mul _
  have hlow : (0 : ℤ) ≤ ⌊q * (pool.length : ℚ)⌋ :=
    Int.floor_nonneg.mpr (mul_nonneg h0 (le_of_lt hLQ))
  have hhi : ⌊q * (pool.length : ℚ)⌋ < (pool.length : ℤ) := by
    rw [Int.floor_lt]
    exact_mod_cast hup
  have hidx : (⌊q * (pool.length : ℚ)⌋).toNat < pool.length := by omega
  refine ⟨pool.get ⟨(⌊q * (pool.length : ℚ)⌋).toNat, hidx⟩,
    List.get_mem _ _ _, ?_⟩
  simp [jpick, List.get?_eq_get hidx]

/-- The generic foreign-key draw `pool[floor(rand * len)]?.id || null`
satisfies `FkOk`. -/
theorem fkOk_jsId_jpick (pool : List JVal) (q : ℚ) (h0 : 0 ≤ q)
    (h1 : q < 1) : FkOk pool (jsId (jpick pool q)) := by
  constructor
  · intro hnil
    subst hnil
    rfl
  · intro hne
    obtain ⟨r, hmem, hpick⟩ := jpick_mem pool q h0 h1 hne
    exact ⟨r, hmem, by simp [jsId, hpick]⟩

/-- `FkOk` implies `FkSafe`. -/
theorem fkOk_fkSafe (pool : List JVal) (fk : Option String)
    (h : FkOk pool fk) : FkSafe pool fk := by
  refine ⟨h.1, ?_⟩
  intro v hv
  rcases List.eq_nil_or_concat pool with hnil | ⟨_, _, _⟩
  · rw [h.1 hnil] at hv
    exact absurd hv (by simp)
  · obtain ⟨r, hmem, hr⟩ := h.2 (by simp_all)
    exact ⟨r, hmem, by rw [← hr, hv]⟩

/-- The singleton-or-empty key list `[pool?.id || null].filter(Boolean)`
satisfies `FkListOk`. -/
theorem fkListOk_toList (pool : List JVal) (q : ℚ) (h0 : 0 ≤ q)
    (h1 : q < 1) : FkListOk pool (jsId (jpick pool q)).toList := by
  have hk := fkOk_jsId_jpick pool q h0 h1
  constructor
  · intro hnil
    rw [hk.1 hnil]
    rfl
  · intro v hv
    have hsafe := fkOk_fkSafe pool _ hk
    rcases ho : jsId (jpick pool q) with _ | w
    · rw [ho] at hv
      exact absurd hv (by simp)
    · rw [ho] at hv
      simp at hv
      subst hv
      exact hsafe.2 v ho

/-- `FkSafe` holds trivially for an absent key. -/
theorem fkSafe_none (pool : List JVal) : FkSafe pool none :=
  ⟨fun _ => rfl, fun v hv => absurd hv (by simp)⟩

/-- C9: every payload generator is total on its inputs (each is a Lean
function, defined for all pools including empty ones), and every
foreign-key field it emits is null when the referenced already-resolved
pool is empty and otherwise carries the `id` of a member of that pool —
never an identifier from outside the captured pools.  Covered: the
restaurant, finance-rule, menu-item, menu-item-variant, promotion, order,
customer-care-inquiry and rating-review generators; the remaining
generators (address book, food category, driver, customer, customer care)
emit no foreign-key field at all. -/
theorem claim_c9_generator_foreign_keys
    (customers restaurants drivers addressBooks foodCategories menuItems
      menuItemVariants orders superAdmins : List JVal)
    (d : Nat → ℚ) (nm : Nat → String) (now : ℤ)
    (hd : ∀ k, 0 ≤ d k ∧ d k < 1) :
    FkOk addressBooks
      (restaurantGen addressBooks foodCategories d nm).address_id ∧
    FkOk superAdmins
      (financeRuleGen superAdmins d nm now).created_by_id ∧
    FkOk restaurants
      (menuItemGen restaurants foodCategories d nm).restaurant_id ∧
    FkListOk foodCategories
      (menuItemGen restaurants foodCategories d nm).category ∧
    FkOk menuItems (menuItemVariantGen menuItems d).menu_id ∧
    FkListOk foodCategories
      (promotionGen foodCategories d nm now).food_category_ids ∧
    (FkOk customers (orderGenCurrent customers restaurants drivers
        addressBooks menuItems menuItemVariants d now).customer_id ∧
      FkOk restaurants (orderGenCurrent customers restaurants drivers
        addressBooks menuItems menuItemVariants d now).restaurant_id ∧
      FkOk addressBooks (orderGenCurrent customers restaurants drivers
        addressBooks menuItems menuItemVariants d now).customer_location ∧
      FkOk addressBooks (orderGenCurrent customers restaurants drivers
        addressBooks menuItems menuItemVariants d now).restaurant_location ∧
      ∃ item, (orderGenCurrent customers restaurants drivers addressBooks
          menuItems menuItemVariants d now).order_items = [item] ∧
        FkOk menuItems item.item_id ∧
        FkOk menuItemVariants item.variant_id) ∧
    FkOk customers (inquiryGen customers d).customer_id ∧
    (FkSafe customers (ratingReviewGen customers drivers restaurants
        orders d nm).rr_reviewer_customer_id ∧
      FkSafe drivers (ratingReviewGen customers drivers restaurants
        orders d nm).rr_reviewer_driver_id ∧
      FkSafe restaurants (ratingReviewGen customers drivers restaurants
        orders d nm).rr_reviewer_restaurant_id ∧
      FkSafe customers (ratingReviewGen customers drivers restaurants
        orders d nm).rr_recipient_customer_id ∧
      FkSafe drivers (ratingReviewGen customers drivers restaurants
        orders d nm).rr_recipient_driver_id ∧
      FkSafe restaurants (ratingReviewGen customers drivers restaurants
        orders d nm).rr_recipient_restaurant_id ∧
      FkOk orders (ratingReviewGen customers drivers restaurants
        orders d nm).order_id) := by
  refine ⟨fkOk_jsId_jpick _ _ (hd 0).1 (hd 0).2,
    fkOk_jsId_jpick _ _ (hd 0).1 (hd 0).2,
    fkOk_jsId_jpick _ _ (hd 1).1 (hd 1).2,
    fkListOk_toList _ _ (hd 2).1 (hd 2).2,
    fkOk_jsId_jpick _ _ (hd 0).1 (hd 0).2,
    fkListOk_toList _ _ (hd 0).1 (hd 0).2,
    ⟨fkOk_jsId_jpick _ _ (hd 0).1 (hd 0).2,
      fkOk_jsId_jpick _ _ (hd 1).1 (hd 1).2,
      fkOk_jsId_jpick _ _ (hd 3).1 (hd 3).2,
      fkOk_jsId_jpick _ _ (hd 4).1 (hd 4).2,
      _, rfl,
      fkOk_jsId_jpick _ _ (hd 5).1 (hd 5).2,
      fkOk_jsId_jpick _ _ (hd 6).1 (hd 6).2⟩,
    fkOk_jsId_jpick _ _ (hd 0).1 (hd 0).2,
    ?_, ?_, ?_, ?_, ?_, ?_,
    fkOk_jsId_jpick _ _ (hd 5).1 (hd 5).2⟩
  · simp only [ratingReviewGen]
    split
    · exact fkOk_fkSafe _ _ (fkOk_jsId_jpick _ _ (hd 2).1 (hd 2).2)
    · exact fkSafe_none _
  · simp only [ratingReviewGen]
    split
    · exact fkSafe_none _
    · split
      · exact fkOk_fkSafe _ _ (fkOk_jsId_jpick _ _ (hd 3).1 (hd 3).2)
      · exact fkSafe_none _
  · simp only [ratingReviewGen]
    split
    · exact fkSafe_none _
    · split
      · exact fkSafe_none _
      · exact fkOk_fkSafe _ _ (fkOk_jsId_jpick _ _ (hd 4).1 (hd 4).2)
  · simp only [ratingReviewGen]
    split
    · exact fkOk_fkSafe _ _ (fkOk_jsId_jpick _ _ (hd 2).1 (hd 2).2)
    · exact fkSafe_none _
  · simp only [ratingReviewGen]
    split
    · exact fkSafe_none _
    · split
      · exact fkOk_fkSafe _ _ (fkOk_jsId_jpick _ _ (hd 3).1 (hd 3).2)
      · exact fkSafe_none _
  · simp only [ratingReviewGen]
    split
    · exact fkSafe_none _
    · split
      · exact fkSafe_none _
      · exact fkOk_fkSafe _ _ (fkOk_jsId_jpick _ _ (hd 4).1 (hd 4).2)

/-- The all-zero draw stream. -/
def dZero : Nat → ℚ := fun _ => 0

/-- A constant name oracle. -/
def nmConst : Nat → String := fun _ => "Name"

/-- Witness for C9: with three-member pools the drawn foreign keys are
member ids, and with empty pools every generator still evaluates and
emits null foreign keys. -/
theorem claim_c9_witness :
    FkOk (sampleList 3)
      (restaurantGen (sampleList 3) (sampleList 3) dZero nmConst).address_id ∧
    FkOk (sampleList 3)
      (orderGenCurrent (sampleList 3) (sampleList 3) (sampleList 3)
        (sampleList 3) (sampleList 3) (sampleList 3) dZero 0).customer_id ∧
    (restaurantGen [] [] dZero nmConst).address_id = none ∧
    (orderGenCurrent [] [] [] [] [] [] dZero 0).customer_id = none := by
  have hb : ∀ k, 0 ≤ dZero k ∧ dZero k < 1 :=
    fun _ => ⟨le_refl 0, by norm_num [dZero]⟩
  have h3 := claim_c9_generator_foreign_keys (sampleList 3) (sampleList 3)
    (sampleList 3) (sampleList 3) (sampleList 3) (sampleList 3)
    (sampleList 3) (sampleList 3) (sampleList 3) dZero nmConst 0 hb
  have h0 := claim_c9_generator_foreign_keys [] [] [] [] [] [] [] [] []
    dZero nmConst 0 hb
  exact ⟨h3.1, h3.2.2.2.2.2.2.1.1, h0.1.1 rfl, h0.2.2.2.2.2.2.1.1.1 rfl⟩

/-! ### C10 -/

/-- The current payment draw `["COD", "FWallet"]`: COD below one half. -/
theorem strPick_two (q : ℚ) (h0 : 0 ≤ q) (h1 : q < 1) :
    strPick ["COD", "FWallet"] q = if q < 1 / 2 then "COD" else "FWallet" := by
  have hcast : (((["COD", "FWallet"] : List String).length : ℕ) : ℚ) = 2 := by
    norm_num
  by_cases hq : q < 1 / 2
  · have hfl : ⌊q * (2 : ℚ)⌋ = 0 := by
      rw [Int.floor_eq_zero_iff]
      exact ⟨mul_nonneg h0 (by norm_num), by linarith⟩
    rw [if_pos hq]
    simp [strPick, hcast, hfl]
  · have hlo : (1 : ℤ) ≤ ⌊q * 2⌋ := by
      rw [Int.le_floor]
      push_cast
      linarith
    have hhi : ⌊q * 2⌋ < 2 := by
      rw [Int.floor_lt]
      push_cast
      linarith
    have hfl : ⌊q * (2 : ℚ)⌋ = 1 := by omega
    rw [if_neg hq]
    simp [strPick, hcast, hfl]

/-- The older payment draw `["COD", "COD", "COD", "FWallet"]`: COD below
three quarters. -/
theorem strPick_four (q : ℚ) (h0 : 0 ≤ q) (h1 : q < 1) :
    strPick ["COD", "COD", "COD", "FWallet"] q =
      if q < 3 / 4 then "COD" else "FWallet" := by
  have hcast : (((["COD", "COD", "COD", "FWallet"] : List String).length : ℕ) : ℚ) = 4 := by
    norm_num
  by_cases hq : q < 3 / 4
  · have hlo : (0 : ℤ) ≤ ⌊q * 4⌋ :=
      Int.floor_nonneg.mpr (mul_nonneg h0 (by norm_num))
    have hhi : ⌊q * 4⌋ < 3 := by
      rw [Int.floor_lt]
      push_cast
      linarith
    have hfl : ⌊q * 4⌋ = 0 ∨ ⌊q * 4⌋ = 1 ∨ ⌊q * 4⌋ = 2 := by omega
    rw [if_pos hq]
    rcases hfl with h | h | h <;> simp [strPick, hcast, h]
  · have hlo : (3 : ℤ) ≤ ⌊q * 4⌋ := by
      rw [Int.le_floor]
      push_cast
      linarith
    have hhi : ⌊q * 4⌋ < 4 := by
      rw [Int.floor_lt]
      push_cast
      linarith
    have hfl : ⌊q * 4⌋ = 3 := by omega
    rw [if_neg hq]
    simp [strPick, hcast, hfl]

/-- The concrete draw stream separating the two order generators: the
payment draw is 3/5, everything else 0. -/
def dSplit : Nat → ℚ := fun k => if k = 8 then 3 / 5 else 0

/-- C10: the older and the current order generators differ exactly as
claimed — the old one draws the payment method from
`["COD","COD","COD","FWallet"]` (COD for draws below 3/4) while the
current one draws from `["COD","FWallet"]` (COD below 1/2); the old one
sets `delivery_time` to `order_time` plus 1800-5399 seconds while the
current one sets a value in 60-3600 seconds independent of `order_time`;
and the two are not extensionally equal: at the draw stream `dSplit`
(payment draw 3/5) on empty pools they produce unequal payloads. -/
theorem claim_c10_order_generator_divergence
    (customers restaurants drivers addressBooks menuItems
      menuItemVariants : List JVal) (d : Nat → ℚ) (now : ℤ)
    (h80 : 0 ≤ d 8) (h81 : d 8 < 1) (h150 : 0 ≤ d 15) (h151 : d 15 < 1) :
    ((orderGenOld customers restaurants drivers addressBooks menuItems
        menuItemVariants d now).payment_method =
      if d 8 < 3 / 4 then "COD" else "FWallet") ∧
    ((orderGenCurrent customers restaurants drivers addressBooks menuItems
        menuItemVariants d now).payment_method =
      if d 8 < 1 / 2 then "COD" else "FWallet") ∧
    ((orderGenOld customers restaurants drivers addressBooks menuItems
        menuItemVariants d now).delivery_time =
      now + ⌊d 15 * 3600⌋ + 1800) ∧
    (1800 ≤ (orderGenOld customers restaurants drivers addressBooks
        menuItems menuItemVariants d now).delivery_time - now ∧
      (orderGenOld customers restaurants drivers addressBooks menuItems
        menuItemVariants d now).delivery_time - now < 5400) ∧
    (60 ≤ (orderGenCurrent customers restaurants drivers addressBooks
        menuItems menuItemVariants d now).delivery_time ∧
      (orderGenCurrent customers restaurants drivers addressBooks menuItems
        menuItemVariants d now).delivery_time ≤ 3600) ∧
    (∀ now2 : ℤ, (orderGenCurrent customers restaurants drivers
        addressBooks menuItems menuItemVariants d now2).delivery_time =
      (orderGenCurrent customers restaurants drivers addressBooks menuItems
        menuItemVariants d now).delivery_time) ∧
    orderGenOld [] [] [] [] [] [] dSplit 0 ≠
      orderGenCurrent [] [] [] [] [] [] dSplit 0 := by
  have hfl0 : (0 : ℤ) ≤ ⌊d 15 * 3600⌋ :=
    Int.floor_nonneg.mpr (mul_nonneg h150 (by norm_num))
  have hfl1 : ⌊d 15 * 3600⌋ < 3600 := by
    rw [Int.floor_lt]
    push_cast
    linarith
  have hfl2 : (0 : ℤ) ≤ ⌊d 15 * (3600 - 60 + 1 : ℚ)⌋ :=
    Int.floor_nonneg.mpr (mul_nonneg h150 (by norm_num))
  have hfl3 : ⌊d 15 * (3600 - 60 + 1 : ℚ)⌋ < 3541 := by
    rw [Int.floor_lt]
    push_cast
    linarith
  refine ⟨?_, ?_, rfl, ?_, ?_, fun _ => rfl, ?_⟩
  · show strPick ["COD", "COD", "COD", "FWallet"] (d 8) = _
    exact strPick_four (d 8) h80 h81
  · show strPick ["COD", "FWallet"] (d 8) = _
    exact strPick_two (d 8) h80 h81
  · show 1800 ≤ now + ⌊d 15 * 3600⌋ + 1800 - now ∧
      now + ⌊d 15 * 3600⌋ + 1800 - now < 5400
    omega
  · show 60 ≤ ⌊d 15 * (3600 - 60 + 1 : ℚ)⌋ + 60 ∧
      ⌊d 15 * (3600 - 60 + 1 : ℚ)⌋ + 60 ≤ 3600
    omega
  · intro hcontra
    have hpm := congrArg OrderPayload.payment_method hcontra
    have hold : (orderGenOld [] [] [] [] [] [] dSplit 0).payment_method =
        "COD" := by
      show strPick ["COD", "COD", "COD", "FWallet"] (dSplit 8) = "COD"
      rw [strPick_four (dSplit 8) (by norm_num [dSplit]) (by norm_num [dSplit])]
      norm_num [dSplit]
    have hnew : (orderGenCurrent [] [] [] [] [] [] dSplit 0).payment_method =
        "FWallet" := by
      show strPick ["COD", "FWallet"] (dSplit 8) = "FWallet"
      rw [strPick_two (dSplit 8) (by norm_num [dSplit]) (by norm_num [dSplit])]
      norm_num [dSplit]
    rw [hold, hnew] at hpm
    exact absurd hpm (by simp)

/-- Witness for C10: at the concrete draw stream `dSplit` the old
generator picks COD, the current one picks FWallet, and the two payloads
are unequal. -/
theorem claim_c10_witness :
    ((orderGenOld [] [] [] [] [] [] dSplit 0).payment_method =
      if dSplit 8 < 3 / 4 then "COD" else "FWallet") ∧
    ((orderGenCurrent [] [] [] [] [] [] dSplit 0).payment_method =
      if dSplit 8 < 1 / 2 then "COD" else "FWallet") ∧
    orderGenOld [] [] [] [] [] [] dSplit 0 ≠
      orderGenCurrent [] [] [] [] [] [] dSplit 0 := by
  have h := claim_c10_order_generator_divergence [] [] [] [] [] [] dSplit 0
    (by norm_num [dSplit]) (by norm_num [dSplit])
    (by norm_num [dSplit]) (by norm_num [dSplit])
  exact ⟨h.1, h.2.1, h.2.2.2.2.2.2⟩
